import Mathlib

set_option autoImplicit false

/-!
Verification of `pysgrid/read_netcdf.py` (SGRID convention loader).

We shallowly embed the module's data model and operations:

* a netCDF dataset is a list of dimensions `(name, size)` and a list of
  variables, each with a name, a dimension list, a (typed) attribute list
  and a data array;
* attribute values are either strings or integers (`AVal`), mirroring the
  netCDF attribute types the code actually touches.  String methods such as
  `.strip()` applied to an integer attribute raise `AttributeError`, and
  Python-2 mixed comparisons (`str >= int` is true, `int == str` is false)
  are modelled explicitly, since the module is Python-2 era code;
* the Grid Model under construction (an `SGrid` object) is modelled as its
  attribute dictionary: an association list from attribute names to `PyVal`s;
  `del` on a missing attribute raises `AttributeError`, assignment updates or
  appends a key;
* fallible code returns `Except PyErr`, with one constructor per distinct
  error raised by the module (`SGridNonCompliantError`, the dedicated
  `ValueError` for an unsupported topology dimension, and the generic
  `AttributeError` / `KeyError` / `TypeError` / unpack `ValueError` /
  `IndexError` of the Python runtime).

Helpers from `utils.py`, `variables.py`, `lookup.py` and `sgrid.py` are not
part of the source under examination; where the loader calls into them they
are modelled from the spec (each such definition is marked in its doc
comment).
-/

/-! ### Python-flavoured string helpers (kernel-friendly, over `List Char`) -/

/-- Python `str.strip()`: remove leading and trailing whitespace. -/
def pyStrip (s : String) : String :=
  ⟨(s.toList.dropWhile Char.isWhitespace).reverse.dropWhile Char.isWhitespace |>.reverse⟩

/-- Split a character list at every occurrence of `sep`, keeping empty chunks. -/
def splitCharsAux (sep : Char) : List Char → List Char → List String
  | [], acc => [⟨acc.reverse⟩]
  | c :: rest, acc =>
    if c = sep then ⟨acc.reverse⟩ :: splitCharsAux sep rest []
    else splitCharsAux sep rest (c :: acc)

/-- Python `str.split(' ')`: split on every single space, keeping empty chunks. -/
def pySplitSpace (s : String) : List String :=
  splitCharsAux ' ' s.toList []

/-- Python `str.lower()`. -/
def pyLower (s : String) : String := ⟨s.toList.map Char.toLower⟩

/-- Python `needle in haystack` for strings: contiguous substring test. -/
def pyContains (haystack needle : String) : Bool :=
  decide (needle.toList <:+: haystack.toList)

/-! ### Values, errors -/

/-- A netCDF attribute value: the module only ever manipulates string-valued
and integer-valued attributes. -/
inductive AVal where
  | s (v : String)
  | i (n : Int)
  deriving DecidableEq, Repr

/-- Python-2 `x >= n` for an attribute value against an integer: numbers
compare numerically, while any string compares greater than any number. -/
def py2Ge (a : AVal) (n : Int) : Bool :=
  match a with
  | .s _ => true
  | .i m => n ≤ m

/-- The distinct errors the module can raise: the dedicated
`SGridNonCompliantError`, the dedicated `ValueError` raised for an
unsupported topology dimension (with the offending attribute value), and the
generic runtime errors (`AttributeError attr`, `KeyError key`, `TypeError`,
the `ValueError` of tuple unpacking, `IndexError`). -/
inductive PyErr where
  | sgridNonCompliant
  | valueErrorUnsupportedDim (d : AVal)
  | attributeError (attr : String)
  | keyError (key : String)
  | typeError
  | valueErrorUnpack
  | indexError
  deriving DecidableEq, Repr

/-- A padding kind from the SGRID padding grammar. -/
inductive Padding where
  | pnone
  | plow
  | phigh
  | pboth
  deriving DecidableEq, Repr

/-- One parsed padding clause: `<dim>: <sharedDim> (padding: <pad>)`. -/
structure PadSpec where
  dim : String
  sharedDim : String
  pad : Padding
  deriving DecidableEq, Repr

/-- A Python value stored on the Grid Model object: `PyVal.none` is Python's
`None`; `tup` is a tuple/list of (possibly `None`) variable-name strings;
`dims` a list of `(name, size)` pairs; `arr` a numeric array; `paired` a
zipped lon/lat array; `pads` a parsed padding list; `vdesc` a Variable
Descriptor (name and per-dimension center slicing). -/
inductive PyVal where
  | none
  | int (n : Int)
  | str (s : String)
  | tup (elems : List (Option String))
  | dims (l : List (String × Nat))
  | arr (a : List Int)
  | paired (a : List (Int × Int))
  | pads (l : List PadSpec)
  | vdesc (name : String) (slicing : List Padding)
  deriving DecidableEq, Repr

/-- Coerce a netCDF attribute value to a Python value. -/
def AVal.toPy : AVal → PyVal
  | .s v => .str v
  | .i n => .int n

/-- Decidable equality of `Except` results, so that concrete runs of the
embedded operations can be checked by `decide`. -/
instance {ε α : Type} [DecidableEq ε] [DecidableEq α] : DecidableEq (Except ε α) := fun x y =>
  match x, y with
  | .ok a, .ok b =>
    if h : a = b then isTrue (by rw [h]) else isFalse (fun hc => h (Except.ok.inj hc))
  | .error a, .error b =>
    if h : a = b then isTrue (by rw [h]) else isFalse (fun hc => h (Except.error.inj hc))
  | .ok _, .error _ => isFalse (fun hc => Except.noConfusion hc)
  | .error _, .ok _ => isFalse (fun hc => Except.noConfusion hc)

/-! ### The dataset model -/

/-- A netCDF variable: its name, its dimension-name list, its attribute
list, and its data array. -/
structure NCVar where
  name : String
  dims : List String
  attrs : List (String × AVal)
  data : List Int
  deriving DecidableEq, Repr

/-- A netCDF dataset: its dimensions (`(name, size)` in store order) and its
variables (in store order; the source field is named `variables`, which
Lean reserves). -/
structure NCDataset where
  dims : List (String × Nat)
  vars : List NCVar
  deriving DecidableEq, Repr

/-- `getattr(var, key)` for a netCDF attribute: `Option.none` models the
`AttributeError` of a missing attribute. -/
def getattr (v : NCVar) (key : String) : Option AVal :=
  (v.attrs.find? (fun p => p.1 = key)).map (fun p => p.2)

/-- `dataset.variables[name]`: `Option.none` models the `KeyError` of a
missing variable. -/
def lookupVariable (ds : NCDataset) (name : String) : Option NCVar :=
  ds.vars.find? (fun v => v.name = name)

/-- The variable has a string-valued attribute under `key`. -/
def hasStrAttr (v : NCVar) (key : String) : Bool :=
  match getattr v key with
  | some (.s _) => true
  | _ => false

/-! ### The Grid Model object -/

/-- The Grid Model under construction, as the attribute dictionary of the
`SGrid` object: an association list in insertion order. -/
def Grid := List (String × PyVal)
  deriving DecidableEq, Repr

/-- `getattr` on the Grid Model object. -/
def getA (g : Grid) (k : String) : Option PyVal :=
  (List.find? (fun p => p.1 = k) g).map (fun p => p.2)

/-- Attribute assignment `g.k = v`: update the key in place if it exists,
append otherwise (Python dict semantics; attribute keys are unique). -/
def setA : Grid → String → PyVal → Grid
  | [], k, v => [(k, v)]
  | (k1, v1) :: rest, k, v =>
    if k1 = k then (k, v) :: rest else (k1, v1) :: setA rest k v

/-- `del g.k`: remove the key, raising `AttributeError` if it is absent. -/
def delA (g : Grid) (k : String) : Except PyErr Grid :=
  if List.any g (fun p => p.1 = k) then
    .ok (List.filter (fun p => p.1 ≠ k) g)
  else
    .error (.attributeError k)

/-! ### Convention detector (`NetCDFDataset`) -/

/-- One iteration of the topology scan (`find_grid_topology_vars`, loop
body): read `cf_role`, strip it (an `AttributeError` from `.strip()` on a
non-string is caught by the same handler as a missing attribute), then read
`topology_dimension` — whose absence, once `cf_role` stripped successfully,
raises an uncaught `AttributeError`.  Returns whether the variable
qualifies. -/
def scanTopoVar (v : NCVar) : Except PyErr Bool :=
  match getattr v "cf_role" with
  | Option.none => .ok false
  | some (.i _) => .ok false
  | some (.s role) =>
    match getattr v "topology_dimension" with
    | Option.none => .error (.attributeError "topology_dimension")
    | some td => .ok (pyStrip role = "grid_topology" && py2Ge td 2)

/-- The accumulating loop of `find_grid_topology_vars`: names of qualifying
variables in store order, or the first uncaught error. -/
def findTopoAux : List NCVar → Except PyErr (List String)
  | [] => .ok []
  | v :: rest => do
    let q ← scanTopoVar v
    let tail ← findTopoAux rest
    pure (if q then v.name :: tail else tail)

/-- `NetCDFDataset.find_grid_topology_vars`: the first qualifying variable
name, or `none` when the accumulated list is empty. -/
def find_grid_topology_vars (ds : NCDataset) : Except PyErr (Option String) :=
  (findTopoAux ds.vars).map List.head?

/-- `NetCDFDataset.sgrid_compliant_file`: true iff a topology variable was
found. -/
def sgrid_compliant_file (ds : NCDataset) : Except PyErr Bool :=
  (find_grid_topology_vars ds).map Option.isSome

/-- `NetCDFDataset.search_variables_by_location`: names of variables whose
`location` attribute equals `loc` (a non-string `location` is `!=` any
string; a missing one is skipped by the `except AttributeError: continue`). -/
def search_variables_by_location (ds : NCDataset) (loc : String) : List String :=
  (ds.vars.filter (fun v =>
    match getattr v "location" with
    | some (.s l) => l = loc
    | _ => false)).map NCVar.name

/-! ### Modelled externals (lookup.py) -/

/-- Modelled from the spec: `lookup.py` (not under src) enumerates the
accepted `long_name` strings for longitude of grid cell nodes (§4.2). -/
def LON_GRID_CELL_NODE_LONG_NAME : List String := ["longitude of grid cell nodes"]

/-- Modelled from the spec: `lookup.py` (not under src) enumerates the
accepted `long_name` strings for latitude of grid cell nodes (§4.2). -/
def LAT_GRID_CELL_NODE_LONG_NAME : List String := ["latitude of grid cell nodes"]

/-- `NetCDFDataset.find_grid_cell_node_vars`: scan all variables for a
`long_name` in the lon/lat lookup sets; later matches overwrite earlier
ones;  a missing (or, vacuously, non-string) `long_name` skips the
variable. -/
def find_grid_cell_node_vars (ds : NCDataset) : Option String × Option String :=
  ds.vars.foldl
    (fun st v =>
      match getattr v "long_name" with
      | some (.s ln) =>
        let st1 := if ln ∈ LON_GRID_CELL_NODE_LONG_NAME then (some v.name, st.2) else st
        if ln ∈ LAT_GRID_CELL_NODE_LONG_NAME then (st1.1, some v.name) else st1
      | _ => st)
    (Option.none, Option.none)

/-! ### Coordinate inferencer (`find_coordinates_by_location`) -/

/-- The three coordinate slots tracked by `find_coordinates_by_location`
(`x_coordinate`, `y_coordinate`, `z_coordinate`), all starting at `None`. -/
structure CoordSt where
  x : Option String
  y : Option String
  z : Option String
  deriving DecidableEq, Repr

/-- Classify one candidate variable name in the no-`coordinates` fallback
(loop body of lines 132-139): a name containing `lon` (case-insensitively)
fills the x slot, else one containing `lat` fills the y slot, anything else
fills the z slot. -/
def classifyOne (st : CoordSt) (nm : String) : CoordSt :=
  if pyContains (pyLower nm) "lon" then { st with x := some nm }
  else if pyContains (pyLower nm) "lat" then { st with y := some nm }
  else { st with z := some nm }

/-- The candidate list of the no-`coordinates` fallback (lines 123-131):
every variable whose dimension set is a subset of the location variable's
dimensions, other than the location variable itself, with at least one
dimension. -/
def potentialCoordinates (ds : NCDataset) (locVar : NCVar) : List NCVar :=
  ds.vars.filter (fun v =>
    v.dims.all (fun d => d ∈ locVar.dims) && v.name ≠ locVar.name && v.dims ≠ [])

/-- The whole no-`coordinates` fallback classification (lines 132-139). -/
def fallbackClassify (st : CoordSt) (pcs : List NCVar) : CoordSt :=
  pcs.foldl (fun s pc => classifyOne s pc.name) st

/-- Classify one token of a `coordinates` attribute (lines 142-155): look
the token up among the variables (`KeyError` when absent), then classify by
`standard_name` (`longitude` → x, `latitude` → y), falling back to the
case-insensitive `lon`/`lat` name heuristic when `standard_name` is absent;
a non-string `standard_name` equals neither string and classifies
nothing. -/
def classifyToken (ds : NCDataset) (st : CoordSt) (lvc : String) : Except PyErr CoordSt :=
  match lookupVariable ds lvc with
  | Option.none => .error (.keyError lvc)
  | some vc =>
    match getattr vc "standard_name" with
    | Option.none =>
      if pyContains (pyLower vc.name) "lon" then .ok { st with x := some lvc }
      else if pyContains (pyLower vc.name) "lat" then .ok { st with y := some lvc }
      else .ok st
    | some (.s sn) =>
      if sn = "longitude" then .ok { st with x := some lvc }
      else if sn = "latitude" then .ok { st with y := some lvc }
      else .ok st
    | some (.i _) => .ok st

/-- The `coordinates`-attribute branch of the loop (lines 141-157): strip
and split the attribute (a non-string raises `AttributeError` at `.strip()`,
uncaught here), classify every token, and when exactly 3 tokens were given
assign the last one to the z slot unconditionally. -/
def coordsBranch (ds : NCDataset) (st : CoordSt) (a : AVal) : Except PyErr CoordSt :=
  match a with
  | .i _ => .error (.attributeError "strip")
  | .s cs => do
    let lvc_split := pySplitSpace (pyStrip cs)
    let st1 ← lvc_split.foldlM (fun s t => classifyToken ds s t) st
    if lvc_split.length = 3 then
      match lvc_split.getLast? with
      | some zc => pure { st1 with z := some zc }
      | Option.none => pure st1
    else
      pure st1

/-- The loop over the location-tagged variable names (lines 116-158): a
variable without a `coordinates` attribute contributes its fallback
classification and the loop continues; the first variable with a
`coordinates` attribute is classified and the loop `break`s. -/
def fcblLoop (ds : NCDataset) : List String → CoordSt → Except PyErr CoordSt
  | [], st => .ok st
  | vname :: rest, st =>
    match lookupVariable ds vname with
    | Option.none => .error (.keyError vname)
    | some lv =>
      match getattr lv "coordinates" with
      | Option.none =>
        fcblLoop ds rest (fallbackClassify st (potentialCoordinates ds lv))
      | some a => coordsBranch ds st a

/-- Python truthiness of an optional string: `None` and `""` are falsy. -/
def truthyOpt : Option String → Bool
  | some s => s ≠ ""
  | Option.none => false

/-- `NetCDFDataset.find_coordinates_by_location` (lines 99-167): run the
loop, build the 2-tuple (when `topology_dim == 2`) or 3-tuple of slots, and
return it only when all entries are truthy, else `None`. -/
def find_coordinates_by_location (ds : NCDataset) (loc : String) (topology_dim : Int) :
    Except PyErr (Option (List String)) := do
  let st ← fcblLoop ds (search_variables_by_location ds loc) ⟨Option.none, Option.none, Option.none⟩
  let coordinates := if topology_dim = 2 then [st.x, st.y] else [st.x, st.y, st.z]
  if coordinates.all truthyOpt then
    pure (some (coordinates.map (fun c => c.getD "")))
  else
    pure Option.none

/-! ### Modelled externals (utils.py) -/

/-- Modelled from the spec: the padding-kind keywords of the §4.3 grammar. -/
def padKindOf (t : String) : Option Padding :=
  if t = "none" then some .pnone
  else if t = "low" then some .plow
  else if t = "high" then some .phigh
  else if t = "both" then some .pboth
  else Option.none

/-- Drop the final character of a string. -/
def dropLastChar (s : String) : String := ⟨s.toList.dropLast⟩

/-- Does the string end with the given character? -/
def endsWithChar (s : String) (c : Char) : Bool := s.toList.getLast? = some c

/-- Modelled from the spec: clause-by-clause consumption of the whitespace
tokens of a padding attribute (§4.3): each clause is
`<dim>: <shared> (padding: <kind>)`, a clause missing the parenthesized part
defaults to kind `none`, and malformed clauses are skipped as per-attribute
errors rather than aborting. -/
def parsePaddingTokens : List String → List PadSpec
  | [] => []
  | [_] => []
  | t1 :: t2 :: t3 :: t4 :: rest2 =>
    if endsWithChar t1 ':' then
      if t3 = "(padding:" && endsWithChar t4 ')' then
        (match padKindOf (dropLastChar t4) with
         | some k => [⟨dropLastChar t1, t2, k⟩]
         | Option.none => []) ++ parsePaddingTokens rest2
      else
        ⟨dropLastChar t1, t2, .pnone⟩ :: parsePaddingTokens (t3 :: t4 :: rest2)
    else
      parsePaddingTokens (t2 :: t3 :: t4 :: rest2)
  | t1 :: t2 :: rest =>
    if endsWithChar t1 ':' then [⟨dropLastChar t1, t2, .pnone⟩]
    else parsePaddingTokens (t2 :: rest)
termination_by l => l.length
decreasing_by all_goals simp_wf <;> omega

/-- Modelled from the spec: `ParsePadding.parse_padding` lives in
`utils.py`, which is not under src; §4.3 describes its grammar, tolerant of
extra whitespace. -/
def parse_padding (s : String) : List PadSpec :=
  parsePaddingTokens ((pySplitSpace s).filter (fun t => t ≠ ""))

/-- Apply the padding parser to an attribute value; the grammar applies to
strings only. -/
def parsePaddingA : AVal → Except PyErr (List PadSpec)
  | .s v => .ok (parse_padding v)
  | .i _ => .error .typeError

/-- Modelled from the spec: `pair_arrays` lives in `utils.py`, not under
src; §4.5 step 5 zips longitude and latitude elementwise into coordinate
pairs. -/
def pair_arrays (lon lat : List Int) : List (Int × Int) :=
  List.zip lon lat

/-- The Grid Model attributes that can carry parsed padding lists. -/
def paddingAttrKeys : List String :=
  ["face_padding", "vertical_padding", "edge1_padding", "edge2_padding",
   "edge3_padding", "face1_padding", "face2_padding", "face3_padding",
   "volume_padding"]

/-- All padding clauses currently resolved on the Grid Model. -/
def gridPadSpecs (g : Grid) : List PadSpec :=
  paddingAttrKeys.foldr (fun k acc =>
    match getA g k with
    | some (.pads l) => l ++ acc
    | _ => acc) []

/-- Modelled from the spec: `determine_variable_slicing` lives in
`utils.py`, not under src; §4.6: for each of the variable's dimensions look
up a matching padding clause and take its trim kind, defaulting to the
full-range slice. -/
def determine_variable_slicing (g : Grid) (v : NCVar) : List Padding :=
  v.dims.map (fun d =>
    match (gridPadSpecs g).find? (fun p => p.dim = d) with
    | some p => p.pad
    | Option.none => Padding.pnone)

/-- Modelled from the spec: the fields §3 lists for the Grid Model, each
present and unset before resolution begins (the `SGrid` container class of
`sgrid.py` is not under src). -/
def initGridFields : List String :=
  ["dimensions", "topology_dimension", "node_dimensions", "node_coordinates",
   "edge1_dimensions", "edge1_padding", "edge1_coordinates",
   "edge2_dimensions", "edge2_padding", "edge2_coordinates",
   "edge3_dimensions", "edge3_padding", "edge3_coordinates",
   "face_dimensions", "face_padding", "face_coordinates",
   "vertical_dimensions", "vertical_padding",
   "face1_dimensions", "face1_padding", "face1_coordinates",
   "face2_dimensions", "face2_padding", "face2_coordinates",
   "face3_dimensions", "face3_padding", "face3_coordinates",
   "volume_dimensions", "volume_padding", "volume_coordinates",
   "angles", "grid_times", "centers", "nodes", "variables", "grid_variables"]

/-- Modelled from the spec: a fresh Grid Model with every §3 field present
and unset. -/
def initGrid : Grid := initGridFields.map (fun k => (k, PyVal.none))

/-! ### Topology resolver: shared `SGridND` behaviour -/

namespace SGridND

/-- `SGridND.set_dimensions` (and the identical assignment at the top of the
loader): record the dataset's `(name, size)` dimension list. -/
def set_dimensions (ds : NCDataset) (g : Grid) : Grid :=
  setA g "dimensions" (.dims ds.dims)

/-- `SGridND.set_topology_dimension`: record the class-level topology
dimension (2 for `SGrid2D`, 3 for `SGrid3D`). -/
def set_topology_dimension (topology_dim : Int) (g : Grid) : Grid :=
  setA g "topology_dimension" (.int topology_dim)

/-- `SGridND.set_sgrid_topology`: record the topology variable's own
`topology_dimension` attribute (an unguarded read). -/
def set_sgrid_topology (topo : NCVar) (g : Grid) : Except PyErr Grid :=
  match getattr topo "topology_dimension" with
  | Option.none => .error (.attributeError "topology_dimension")
  | some td => .ok (setA g "topology_dimension" td.toPy)

/-- Shared shape of the guarded `set_*_dimensions` methods: read `attrKey`
from the topology variable; silently skip when absent; otherwise parse its
padding and record the raw attribute under `dimKey` and the parsed clauses
under `padKey`. -/
def setDimsGroup (topo : NCVar) (attrKey dimKey padKey : String) (g : Grid) :
    Except PyErr Grid :=
  match getattr topo attrKey with
  | Option.none => .ok g
  | some a => do
    let pads ← parsePaddingA a
    pure (setA (setA g dimKey a.toPy) padKey (.pads pads))

/-- Convert an attribute value into the split-on-space tuple the
`set_*_coordinates` methods store; `.split` on a non-string raises an
uncaught `AttributeError`. -/
def splitToTup (a : AVal) : Except PyErr PyVal :=
  match a with
  | .s v => .ok (.tup ((pySplitSpace v).map some))
  | .i _ => .error (.attributeError "split")

/-- Shared shape of the guarded `set_*_coordinates` methods: read `attrKey`
from the topology variable; silently skip when absent; otherwise split it
on spaces and record the tuple under `coordKey`. -/
def setCoordsGroup (topo : NCVar) (attrKey coordKey : String) (g : Grid) :
    Except PyErr Grid :=
  match getattr topo attrKey with
  | Option.none => .ok g
  | some a => do
    let t ← splitToTup a
    pure (setA g coordKey t)

/-- `SGridND.set_edge1_dimensions` (stores the singular `edge1_dimension`
key, as the source does). -/
def set_edge1_dimensions (topo : NCVar) (g : Grid) : Except PyErr Grid :=
  setDimsGroup topo "edge1_dimensions" "edge1_dimension" "edge1_padding" g

/-- `SGridND.set_edge1_coordinates`. -/
def set_edge1_coordinates (topo : NCVar) (g : Grid) : Except PyErr Grid :=
  setCoordsGroup topo "edge1_coordinates" "edge1_coordinates" g

/-- `SGridND.set_edge2_dimensions` (singular `edge2_dimension` key). -/
def set_edge2_dimensions (topo : NCVar) (g : Grid) : Except PyErr Grid :=
  setDimsGroup topo "edge2_dimensions" "edge2_dimension" "edge2_padding" g

/-- `SGridND.set_edge2_coordinates`. -/
def set_edge2_coordinates (topo : NCVar) (g : Grid) : Except PyErr Grid :=
  setCoordsGroup topo "edge2_coordinates" "edge2_coordinates" g

/-- `SGridND.set_all_edge_attributes` (the 2-D inherited version). -/
def set_all_edge_attributes (topo : NCVar) (g : Grid) : Except PyErr Grid := do
  let g ← set_edge1_dimensions topo g
  let g ← set_edge1_coordinates topo g
  let g ← set_edge2_dimensions topo g
  let g ← set_edge2_coordinates topo g
  pure g

/-- `SGridND.set_sgrid_node_coordinates`: an unguarded `node_dimensions`
read, then `node_coordinates` split into a tuple, falling back to the
grid-cell-node long-name scan when the attribute is absent. -/
def set_sgrid_node_coordinates (ds : NCDataset) (topo : NCVar) (g : Grid) :
    Except PyErr Grid :=
  match getattr topo "node_dimensions" with
  | Option.none => .error (.attributeError "node_dimensions")
  | some nd =>
    let g := setA g "node_dimensions" nd.toPy
    match getattr topo "node_coordinates" with
    | Option.none =>
      let p := find_grid_cell_node_vars ds
      .ok (setA g "node_coordinates" (.tup [p.1, p.2]))
    | some a => do
      let t ← splitToTup a
      pure (setA g "node_coordinates" t)

/-- `SGridND.set_sgrid_angles`: a hard-coded `angle` variable; its absence
is tolerated. -/
def set_sgrid_angles (ds : NCDataset) (g : Grid) : Grid :=
  match lookupVariable ds "angle" with
  | some v => setA g "angles" (.arr v.data)
  | Option.none => g

/-- `SGridND.set_sgrid_time`: read the hard-coded `time` variable, falling
back to `Times` on `KeyError`; a missing `Times` raises the dict's
`KeyError` uncaught. -/
def set_sgrid_time (ds : NCDataset) (g : Grid) : Except PyErr Grid :=
  match lookupVariable ds "time" with
  | some v => .ok (setA g "grid_times" (.arr v.data))
  | Option.none =>
    match lookupVariable ds "Times" with
    | some v => .ok (setA g "grid_times" (.arr v.data))
    | Option.none => .error (.keyError "Times")

/-- One iteration of the `set_sgrid_variable_attributes` loop: record the
variable name, build its Variable Descriptor with its center slicing, store
it on the model via `add_property`, and collect it when it bears a `grid`
attribute. -/
def svaStep (acc : Grid × List String × List String) (v : NCVar) :
    Grid × List String × List String :=
  (setA acc.1 v.name (.vdesc v.name (determine_variable_slicing acc.1 v)),
   acc.2.1 ++ [v.name],
   if (getattr v "grid").isSome then acc.2.2 ++ [v.name] else acc.2.2)

/-- `SGridND.set_sgrid_variable_attributes`: loop over every dataset
variable (`SGridVariable.create_variable` and `determine_variable_slicing`
are modelled from the spec, §3 and §4.6), then record the collected name
lists. -/
def set_sgrid_variable_attributes (ds : NCDataset) (g : Grid) : Grid :=
  let r := ds.vars.foldl svaStep (g, [], [])
  setA (setA r.1 "variables" (.tup (r.2.1.map some))) "grid_variables" (.tup (r.2.2.map some))

end SGridND

/-- Tuple unpacking `a, b = v` of a Grid Model attribute: a tuple of exactly
two entries unpacks, another arity raises `ValueError`, a non-sequence
raises `TypeError`. -/
def unpack2 : Option PyVal → Except PyErr (Option String × Option String)
  | some (.tup [a, b]) => .ok (a, b)
  | some (.tup _) => .error .valueErrorUnpack
  | _ => .error .typeError

/-- `dataset.variables[name][:]`: read a variable's data by (possibly
`None`) name; a missing key raises `KeyError`. -/
def readVarData (ds : NCDataset) : Option String → Except PyErr (List Int)
  | Option.none => .error (.keyError "None")
  | some n =>
    match lookupVariable ds n with
    | some v => .ok v.data
    | Option.none => .error (.keyError n)

/-! ### Topology resolver: the 2-D variant -/

namespace SGrid2D

/-- `SGrid2D.set_face_dimensions`. -/
def set_face_dimensions (topo : NCVar) (g : Grid) : Except PyErr Grid :=
  SGridND.setDimsGroup topo "face_dimensions" "face_dimensions" "face_padding" g

/-- `SGrid2D.set_sgrid_vertical_dimensions`. -/
def set_sgrid_vertical_dimensions (topo : NCVar) (g : Grid) : Except PyErr Grid :=
  SGridND.setDimsGroup topo "vertical_dimensions" "vertical_dimensions" "vertical_padding" g

/-- `SGrid2D.set_face_coordindates` (source spelling): split the
`face_coordinates` attribute, or infer the face coordinates by location with
the class topology dimension 2 — an inference miss stores `None`. -/
def set_face_coordindates (ds : NCDataset) (topo : NCVar) (g : Grid) : Except PyErr Grid :=
  match getattr topo "face_coordinates" with
  | Option.none => do
    let r ← find_coordinates_by_location ds "face" 2
    pure (setA g "face_coordinates" (match r with
      | some l => .tup (l.map some)
      | Option.none => .none))
  | some a => do
    let t ← SGridND.splitToTup a
    pure (setA g "face_coordinates" t)

/-- `SGrid2D.set_all_face_attributes`. -/
def set_all_face_attributes (ds : NCDataset) (topo : NCVar) (g : Grid) : Except PyErr Grid := do
  let g ← set_face_dimensions topo g
  let g ← set_face_coordindates ds topo g
  pure g

/-- `SGrid2D.set_cell_center_lat_lon`: unpack `face_coordinates` into
(lon, lat) names, read latitude then longitude, and store the zipped
centers. -/
def set_cell_center_lat_lon (ds : NCDataset) (g : Grid) : Except PyErr Grid := do
  let p ← unpack2 (getA g "face_coordinates")
  let lat ← readVarData ds p.2
  let lon ← readVarData ds p.1
  pure (setA g "centers" (.paired (pair_arrays lon lat)))

/-- `SGrid2D.set_cell_node_lat_lon`: the same for `node_coordinates` into
`nodes`. -/
def set_cell_node_lat_lon (ds : NCDataset) (g : Grid) : Except PyErr Grid := do
  let p ← unpack2 (getA g "node_coordinates")
  let lat ← readVarData ds p.2
  let lon ← readVarData ds p.1
  pure (setA g "nodes" (.paired (pair_arrays lon lat)))

/-- `SGrid2D.delete_nd_attributes`: `del` the fifteen 3-D-only attributes,
in source order. -/
def delete_nd_attributes (g : Grid) : Except PyErr Grid := do
  let g ← delA g "volume_padding"
  let g ← delA g "volume_dimensions"
  let g ← delA g "volume_coordinates"
  let g ← delA g "face1_padding"
  let g ← delA g "face1_coordinates"
  let g ← delA g "face1_dimensions"
  let g ← delA g "face2_padding"
  let g ← delA g "face2_coordinates"
  let g ← delA g "face2_dimensions"
  let g ← delA g "face3_padding"
  let g ← delA g "face3_coordinates"
  let g ← delA g "face3_dimensions"
  let g ← delA g "edge3_padding"
  let g ← delA g "edge3_coordinates"
  let g ← delA g "edge3_dimensions"
  pure g

end SGrid2D

/-! ### Topology resolver: the 3-D variant -/

namespace SGrid3D

/-- `SGrid3D.set_volume_dimensions`. -/
def set_volume_dimensions (topo : NCVar) (g : Grid) : Except PyErr Grid :=
  SGridND.setDimsGroup topo "volume_dimensions" "volume_dimensions" "volume_padding" g

/-- `SGrid3D.set_volume_coordinates`: split the `volume_coordinates`
attribute, or infer the volume coordinates by location with the class
topology dimension 3. -/
def set_volume_coordinates (ds : NCDataset) (topo : NCVar) (g : Grid) : Except PyErr Grid :=
  match getattr topo "volume_coordinates" with
  | Option.none => do
    let r ← find_coordinates_by_location ds "volume" 3
    pure (setA g "volume_coordinates" (match r with
      | some l => .tup (l.map some)
      | Option.none => .none))
  | some a => do
    let t ← SGridND.splitToTup a
    pure (setA g "volume_coordinates" t)

/-- `SGrid3D.set_edge3_dimensions` (singular `edge3_dimension` key). -/
def set_edge3_dimensions (topo : NCVar) (g : Grid) : Except PyErr Grid :=
  SGridND.setDimsGroup topo "edge3_dimensions" "edge3_dimension" "edge3_padding" g

/-- `SGrid3D.set_edge3_coordinates`. -/
def set_edge3_coordinates (topo : NCVar) (g : Grid) : Except PyErr Grid :=
  SGridND.setCoordsGroup topo "edge3_coordinates" "edge3_coordinates" g

/-- `SGrid3D.set_all_edge_attributes`: edge1, edge2 and edge3. -/
def set_all_edge_attributes (topo : NCVar) (g : Grid) : Except PyErr Grid := do
  let g ← SGridND.set_edge1_dimensions topo g
  let g ← SGridND.set_edge1_coordinates topo g
  let g ← SGridND.set_edge2_dimensions topo g
  let g ← SGridND.set_edge2_coordinates topo g
  let g ← set_edge3_dimensions topo g
  let g ← set_edge3_coordinates topo g
  pure g

/-- `SGrid3D.set_face1_dimensions`. -/
def set_face1_dimensions (topo : NCVar) (g : Grid) : Except PyErr Grid :=
  SGridND.setDimsGroup topo "face1_dimensions" "face1_dimensions" "face1_padding" g

/-- `SGrid3D.set_face1_coordinates`. -/
def set_face1_coordinates (topo : NCVar) (g : Grid) : Except PyErr Grid :=
  SGridND.setCoordsGroup topo "face1_coordinates" "face1_coordinates" g

/-- `SGrid3D.set_face2_dimensions`. -/
def set_face2_dimensions (topo : NCVar) (g : Grid) : Except PyErr Grid :=
  SGridND.setDimsGroup topo "face2_dimensions" "face2_dimensions" "face2_padding" g

/-- `SGrid3D.set_face2_coordinates`. -/
def set_face2_coordinates (topo : NCVar) (g : Grid) : Except PyErr Grid :=
  SGridND.setCoordsGroup topo "face2_coordinates" "face2_coordinates" g

/-- `SGrid3D.set_face3_dimensions`. -/
def set_face3_dimensions (topo : NCVar) (g : Grid) : Except PyErr Grid :=
  SGridND.setDimsGroup topo "face3_dimensions" "face3_dimensions" "face3_padding" g

/-- `SGrid3D.set_face3_coordinates`. -/
def set_face3_coordinates (topo : NCVar) (g : Grid) : Except PyErr Grid :=
  SGridND.setCoordsGroup topo "face3_coordinates" "face3_coordinates" g

/-- `SGrid3D.set_all_face_attributes`. -/
def set_all_face_attributes (topo : NCVar) (g : Grid) : Except PyErr Grid := do
  let g ← set_face1_dimensions topo g
  let g ← set_face1_coordinates topo g
  let g ← set_face2_dimensions topo g
  let g ← set_face2_coordinates topo g
  let g ← set_face3_dimensions topo g
  let g ← set_face3_coordinates topo g
  pure g

/-- `SGrid3D.set_cell_center_lat_lon`: index `volume_coordinates[0]` and
`[1]` (an `IndexError` on a short tuple, a `TypeError` on `None`), read
longitude then latitude, and store the zipped centers. -/
def set_cell_center_lat_lon (ds : NCDataset) (g : Grid) : Except PyErr Grid :=
  match getA g "volume_coordinates" with
  | some (.tup l) =>
    match l.get? 0, l.get? 1 with
    | some lonN, some latN => do
      let lon ← readVarData ds lonN
      let lat ← readVarData ds latN
      pure (setA g "centers" (.paired (pair_arrays lon lat)))
    | _, _ => .error .indexError
  | _ => .error .typeError

/-- `SGrid3D.set_cell_node_lat_lon` is a no-op. -/
def set_cell_node_lat_lon (g : Grid) : Grid := g

/-- `SGrid3D.delete_nd_attributes`: `del` the five 2-D-only attributes, in
source order. -/
def delete_nd_attributes (g : Grid) : Except PyErr Grid := do
  let g ← delA g "face_padding"
  let g ← delA g "face_coordinates"
  let g ← delA g "face_dimensions"
  let g ← delA g "vertical_padding"
  let g ← delA g "vertical_dimensions"
  pure g

end SGrid3D

/-! ### The top-level load operation -/

/-- The 2-D branch of `load_grid_from_nc_dataset` (lines 596-610): the
method calls on the freshly constructed `SGrid2D`, in source order. -/
def pipeline2D (ds : NCDataset) (topo : NCVar) (g : Grid) : Except PyErr Grid := do
  let g := SGridND.set_dimensions ds g
  let g := SGridND.set_topology_dimension 2 g
  let g ← SGridND.set_sgrid_topology topo g
  let g ← SGrid2D.set_sgrid_vertical_dimensions topo g
  let g ← SGridND.set_sgrid_node_coordinates ds topo g
  let g ← SGridND.set_all_edge_attributes topo g
  let g ← SGrid2D.set_all_face_attributes ds topo g
  let g ← SGrid2D.set_cell_center_lat_lon ds g
  let g ← SGrid2D.set_cell_node_lat_lon ds g
  let g := SGridND.set_sgrid_angles ds g
  let g ← SGridND.set_sgrid_time ds g
  let g := SGridND.set_sgrid_variable_attributes ds g
  let g ← SGrid2D.delete_nd_attributes g
  pure g

/-- The 3-D branch of `load_grid_from_nc_dataset` (lines 612-627): the
method calls on the freshly constructed `SGrid3D`, in source order. -/
def pipeline3D (ds : NCDataset) (topo : NCVar) (g : Grid) : Except PyErr Grid := do
  let g := SGridND.set_dimensions ds g
  let g := SGridND.set_topology_dimension 3 g
  let g ← SGridND.set_sgrid_topology topo g
  let g ← SGridND.set_sgrid_node_coordinates ds topo g
  let g ← SGrid3D.set_all_edge_attributes topo g
  let g ← SGrid3D.set_all_face_attributes topo g
  let g ← SGrid3D.set_volume_dimensions topo g
  let g ← SGrid3D.set_volume_coordinates ds topo g
  let g ← SGrid3D.set_cell_center_lat_lon ds g
  let g := SGrid3D.set_cell_node_lat_lon g
  let g := SGridND.set_sgrid_angles ds g
  let g ← SGridND.set_sgrid_time ds g
  let g := SGridND.set_sgrid_variable_attributes ds g
  let g ← SGrid3D.delete_nd_attributes g
  pure g

/-- `load_grid_from_nc_dataset` (lines 565-632): compliance check first
(`SGridNonCompliantError` when it fails), then record the dataset
dimensions, select the topology variable (the scan result, unless one was
passed explicitly), look it up, and dispatch on its `topology_dimension`
attribute — 2 and 3 run the matching pipeline, anything else raises the
dedicated unsupported-topology-dimension `ValueError`. -/
def load_grid_from_nc_dataset (ds : NCDataset) (grid : Grid)
    (grid_topology_vars : Option String) : Except PyErr Grid := do
  let is_sgrid_compliant ← sgrid_compliant_file ds
  if is_sgrid_compliant then
    let g := setA grid "dimensions" (.dims ds.dims)
    let gtva ← (match grid_topology_vars with
      | Option.none => find_grid_topology_vars ds
      | some v => Except.ok (some v))
    let g := setA g "grid_topology_vars" (match gtva with
      | some s => .str s
      | Option.none => .none)
    let topo ← (match gtva with
      | some s =>
        match lookupVariable ds s with
        | some v => Except.ok v
        | Option.none => Except.error (PyErr.keyError s)
      | Option.none => Except.error (PyErr.keyError "None"))
    match getattr topo "topology_dimension" with
    | Option.none => .error (.attributeError "topology_dimension")
    | some td =>
      if td = AVal.i 2 then pipeline2D ds topo g
      else if td = AVal.i 3 then pipeline3D ds topo g
      else .error (.valueErrorUnsupportedDim td)
  else
    .error .sgridNonCompliant

/-! ### Concrete datasets used by counterexamples and witnesses -/

/-- A 2-D topology variable: `face_dimensions` deliberately absent. -/
def exVGrid2 : NCVar :=
  { name := "grid", dims := [],
    attrs := [("cf_role", .s "grid_topology"), ("topology_dimension", .i 2),
              ("node_dimensions", .s "xi_psi eta_psi"),
              ("node_coordinates", .s "nlon nlat"),
              ("face_coordinates", .s "clon clat")],
    data := [] }

/-- A small 2-D SGRID-compliant dataset that loads successfully. -/
def exDS2 : NCDataset :=
  { dims := [("xi_psi", 2), ("eta_psi", 2), ("xi_rho", 3), ("eta_rho", 3), ("t", 2)],
    vars :=
      [exVGrid2,
       { name := "nlon", dims := ["xi_psi", "eta_psi"], attrs := [], data := [1, 2] },
       { name := "nlat", dims := ["xi_psi", "eta_psi"], attrs := [], data := [3, 4] },
       { name := "clon", dims := ["xi_rho", "eta_rho"], attrs := [], data := [5, 6] },
       { name := "clat", dims := ["xi_rho", "eta_rho"], attrs := [], data := [7, 8] },
       { name := "time", dims := ["t"], attrs := [], data := [0, 1] }] }

/-- The Grid Model produced from `exDS2`. -/
def exLoaded2 : Grid :=
  (load_grid_from_nc_dataset exDS2 initGrid Option.none).toOption.getD []

/-- A 3-D topology variable. -/
def exVGrid3 : NCVar :=
  { name := "grid3", dims := [],
    attrs := [("cf_role", .s "grid_topology"), ("topology_dimension", .i 3),
              ("node_dimensions", .s "a b c"),
              ("node_coordinates", .s "nlon3 nlat3 nz3"),
              ("volume_coordinates", .s "vlon vlat vz")],
    data := [] }

/-- A small 3-D SGRID-compliant dataset that loads successfully. -/
def exDS3 : NCDataset :=
  { dims := [("a", 1), ("b", 1), ("c", 1)],
    vars :=
      [exVGrid3,
       { name := "vlon", dims := ["a"], attrs := [], data := [1] },
       { name := "vlat", dims := ["a"], attrs := [], data := [2] },
       { name := "time", dims := ["a"], attrs := [], data := [9] }] }

/-- The Grid Model produced from `exDS3`. -/
def exLoaded3 : Grid :=
  (load_grid_from_nc_dataset exDS3 initGrid Option.none).toOption.getD []

/-- A dataset whose only variable has a string `cf_role` (not
`grid_topology`) and no `topology_dimension`: nothing qualifies, yet the
scan blows up. -/
def exDSCfRoleNoDim : NCDataset :=
  { dims := [],
    vars := [{ name := "w", dims := [], attrs := [("cf_role", .s "other")], data := [] }] }

/-- A second such dataset, with `cf_role` equal to `grid_topology` itself
but no `topology_dimension`. -/
def exDSTopoNoDim : NCDataset :=
  { dims := [],
    vars :=
      [{ name := "w2", dims := [], attrs := [("cf_role", .s "grid_topology")], data := [] }] }

/-- A variable with an integer-valued `cf_role` and no
`topology_dimension`. -/
def exVIntCfRole : NCVar :=
  { name := "q", dims := [], attrs := [("cf_role", .i 1)], data := [] }

/-- A dataset whose only variable has an integer-valued `cf_role` and no
`topology_dimension`: `.strip()` raises `AttributeError`, which the scan
catches, so the variable is skipped. -/
def exDSIntCfRole : NCDataset := { dims := [], vars := [exVIntCfRole] }

/-- A topology variable carrying the unsupported dimension 4. -/
def exVGrid4 : NCVar :=
  { name := "g4", dims := [],
    attrs := [("cf_role", .s "grid_topology"), ("topology_dimension", .i 4)],
    data := [] }

/-- A dataset whose topology variable has topology dimension 4. -/
def exDSDim4 : NCDataset := { dims := [], vars := [exVGrid4] }

/-- `exDS2` with its `time` variable removed (and no `Times` either). -/
def exDSNoTime : NCDataset :=
  { dims := exDS2.dims,
    vars := exDS2.vars.filter (fun v => v.name ≠ "time") }

/-- A dataset with a face-located variable whose `coordinates` attribute
names a variable that does not exist. -/
def exDSGhost : NCDataset :=
  { dims := [("a", 2)],
    vars :=
      [{ name := "u", dims := ["a"],
         attrs := [("location", .s "face"), ("coordinates", .s "ghost")],
         data := [] }] }

/-! ### Helper lemmas about the topology scan -/

/-- The qualification predicate as the claims phrase it: a string-valued
`cf_role` trimming to `grid_topology`, together with a `topology_dimension`
attribute of at least 2 (Python-2 comparison). -/
def claimQualifies (v : NCVar) : Bool :=
  (match getattr v "cf_role" with
   | some (.s role) => pyStrip role = "grid_topology"
   | _ => false)
  && (match getattr v "topology_dimension" with
      | some td => py2Ge td 2
      | Option.none => false)

/-- The scan cannot blow up on `v`: a string-valued `cf_role` is accompanied
by a `topology_dimension` attribute. -/
def scanSafe (v : NCVar) : Bool :=
  !(hasStrAttr v "cf_role") || (getattr v "topology_dimension").isSome

theorem scanTopoVar_of_safe (v : NCVar) (h : scanSafe v = true) :
    scanTopoVar v = .ok (claimQualifies v) := by
  unfold scanSafe hasStrAttr at h
  unfold scanTopoVar claimQualifies
  rcases hc : getattr v "cf_role" with _ | a
  · simp
  · rcases a with role | n
    · rcases ht : getattr v "topology_dimension" with _ | td
      · rw [hc, ht] at h
        simp at h
      · rfl
    · simp

theorem scanTopoVar_error_eq (v : NCVar) (e : PyErr) (h : scanTopoVar v = .error e) :
    e = .attributeError "topology_dimension" := by
  unfold scanTopoVar at h
  rcases hc : getattr v "cf_role" with _ | a
  · rw [hc] at h
    simp at h
  · rcases a with role | n
    · rcases ht : getattr v "topology_dimension" with _ | td
      · rw [hc, ht] at h
        exact (Except.error.inj h).symm
      · rw [hc, ht] at h
        simp at h
    · rw [hc] at h
      simp at h

theorem findTopoAux_of_safe (l : List NCVar) (h : ∀ v ∈ l, scanSafe v = true) :
    findTopoAux l = .ok ((l.filter claimQualifies).map NCVar.name) := by
  induction l with
  | nil => rfl
  | cons v rest ih =>
    have hv := scanTopoVar_of_safe v (h v (by simp))
    have hr := ih (fun w hw => h w (by simp [hw]))
    simp only [findTopoAux, hv, hr, Except.bind, bind, List.filter_cons]
    rcases hq : claimQualifies v with _ | _ <;> simp [hq, pure, Except.pure]

theorem findTopoAux_error_of_mem (l : List NCVar) (v : NCVar) (hv : v ∈ l)
    (he : scanTopoVar v = .error (.attributeError "topology_dimension")) :
    findTopoAux l = .error (.attributeError "topology_dimension") := by
  induction l with
  | nil => simp at hv
  | cons w rest ih =>
    rcases hsw : scanTopoVar w with e | b
    · have := scanTopoVar_error_eq w e hsw
      subst this
      simp only [findTopoAux, hsw, Except.bind, bind]
    · have hvr : v ∈ rest := by
        rcases List.mem_cons.mp hv with h1 | h1
        · subst h1
          rw [hsw] at he
          exact absurd he (by simp)
        · exact h1
      simp only [findTopoAux, hsw, ih hvr, Except.bind, bind]

theorem head?_filter_eq_find? (p : NCVar → Bool) (l : List NCVar) :
    (l.filter p).head? = l.find? p := by
  induction l with
  | nil => rfl
  | cons v rest ih =>
    by_cases hp : p v
    · simp [List.filter_cons, List.find?, hp]
    · simp [List.filter_cons, List.find?, hp, ih]

/-! ### Claim C9 -/

/-- C9 (counterexample): the claim quantifies over a `cf_role` attribute *of
any value*; with an integer-valued `cf_role` the `.strip()` call raises
`AttributeError`, which the scan's own handler catches, so the variable is
skipped: the scan returns none without error and the load raises only the
non-compliant error. -/
theorem C9_counterexample :
    getattr exVIntCfRole "cf_role" = some (.i 1) ∧
    getattr exVIntCfRole "topology_dimension" = Option.none ∧
    find_grid_topology_vars exDSIntCfRole = .ok Option.none ∧
    load_grid_from_nc_dataset exDSIntCfRole initGrid Option.none = .error .sgridNonCompliant :=
  ⟨by decide, by decide, by decide, by decide⟩

/-- C9 (amended): for every dataset containing a variable with a
*string-valued* `cf_role` attribute (of any string) but no
`topology_dimension` attribute, the topology scan — and therefore the
compliance check and the whole load — terminates with the unclassified
attribute-access error instead of skipping that variable or returning
none. -/
theorem C9_scan_raises (ds : NCDataset) (v : NCVar) (hv : v ∈ ds.vars)
    (hs : hasStrAttr v "cf_role" = true)
    (hn : getattr v "topology_dimension" = Option.none) :
    find_grid_topology_vars ds = .error (.attributeError "topology_dimension") ∧
    sgrid_compliant_file ds = .error (.attributeError "topology_dimension") ∧
    ∀ g gtv, load_grid_from_nc_dataset ds g gtv =
      .error (.attributeError "topology_dimension") := by
  have hscan : scanTopoVar v = .error (.attributeError "topology_dimension") := by
    unfold scanTopoVar
    unfold hasStrAttr at hs
    rcases hc : getattr v "cf_role" with _ | a
    · rw [hc] at hs
      simp at hs
    · rcases a with role | n
      · rw [hn]
      · rw [hc] at hs
        simp at hs
  have haux := findTopoAux_error_of_mem ds.vars v hv hscan
  have hfind : find_grid_topology_vars ds = .error (.attributeError "topology_dimension") := by
    unfold find_grid_topology_vars
    rw [haux]
    rfl
  refine ⟨hfind, ?_, ?_⟩
  · unfold sgrid_compliant_file
    rw [hfind]
    rfl
  · intro g gtv
    unfold load_grid_from_nc_dataset sgrid_compliant_file
    rw [hfind]
    rfl

/-- C9 (witness): the amended statement applied to a concrete dataset whose
only variable carries `cf_role = "grid_topology"` as a string but no
`topology_dimension`. -/
theorem C9_witness :
    find_grid_topology_vars exDSTopoNoDim = .error (.attributeError "topology_dimension") ∧
    sgrid_compliant_file exDSTopoNoDim = .error (.attributeError "topology_dimension") ∧
    ∀ g gtv, load_grid_from_nc_dataset exDSTopoNoDim g gtv =
      .error (.attributeError "topology_dimension") :=
  C9_scan_raises exDSTopoNoDim
    { name := "w2", dims := [], attrs := [("cf_role", .s "grid_topology")], data := [] }
    (by decide) (by decide) (by decide)

/-! ### Claim C3 -/

/-- C3 (counterexample): the claim says the scan returns the first
qualifying variable, or none when no variable qualifies — unconditionally.
On a dataset whose only variable has a string `cf_role` (not
`grid_topology`) and no `topology_dimension`, no variable qualifies, yet
the scan raises `AttributeError` instead of returning none. -/
theorem C3_counterexample :
    (∀ v ∈ exDSCfRoleNoDim.vars, claimQualifies v = false) ∧
    find_grid_topology_vars exDSCfRoleNoDim = .error (.attributeError "topology_dimension") :=
  ⟨by decide, by decide⟩

/-- C3 (amended): provided every variable with a string-valued `cf_role`
also carries a `topology_dimension` attribute (so the scan cannot raise),
`find_grid_topology_vars` scans all variables and returns the first one, in
store iteration order, whose trimmed `cf_role` equals `grid_topology` and
whose `topology_dimension` is at least 2; when no variable qualifies it
returns none. -/
theorem C3_first_qualifying (ds : NCDataset)
    (h : ∀ v ∈ ds.vars, scanSafe v = true) :
    find_grid_topology_vars ds = .ok ((ds.vars.find? claimQualifies).map NCVar.name) := by
  unfold find_grid_topology_vars
  rw [findTopoAux_of_safe ds.vars h]
  simp [Except.map, List.head?_map, head?_filter_eq_find?]

/-- C3 (witness): the amended statement applied to the concrete compliant
dataset `exDS2`, whose scan finds `grid`. -/
theorem C3_witness :
    find_grid_topology_vars exDS2 = .ok ((exDS2.vars.find? claimQualifies).map NCVar.name) :=
  C3_first_qualifying exDS2 (by decide)

/-! ### Claim C1 -/

/-- C1 (counterexample): the claim says any dataset with no qualifying
topology variable makes the load raise the non-compliant-source error.  On
a dataset whose only variable has `cf_role = "grid_topology"` but *no*
`topology_dimension` — so no variable qualifies — the load instead raises
the scan's `AttributeError`, not `SGridNonCompliantError`. -/
theorem C1_counterexample :
    (∀ v ∈ exDSTopoNoDim.vars, claimQualifies v = false) ∧
    load_grid_from_nc_dataset exDSTopoNoDim initGrid Option.none =
      .error (.attributeError "topology_dimension") :=
  ⟨by decide, by decide⟩

/-- C1 (amended): for every dataset in which no variable has a trimmed
`cf_role` of `grid_topology` together with a `topology_dimension` of at
least 2, *and* in which every string-`cf_role` variable carries a
`topology_dimension` (so the scan cannot raise), the load raises the
non-compliant-source error and returns no Grid Model, partial or
otherwise. -/
theorem C1_noncompliant (ds : NCDataset)
    (hsafe : ∀ v ∈ ds.vars, scanSafe v = true)
    (hno : ∀ v ∈ ds.vars, claimQualifies v = false) :
    ∀ g gtv, load_grid_from_nc_dataset ds g gtv = .error .sgridNonCompliant := by
  have hfind : find_grid_topology_vars ds = .ok Option.none := by
    unfold find_grid_topology_vars
    rw [findTopoAux_of_safe ds.vars hsafe]
    have hnil : ds.vars.filter claimQualifies = [] :=
      List.filter_eq_nil_iff.mpr (fun a ha => by simp [hno a ha])
    rw [hnil]
    rfl
  intro g gtv
  unfold load_grid_from_nc_dataset sgrid_compliant_file
  rw [hfind]
  rfl

/-- C1 (witness): the amended statement applied to a concrete dataset with
a location-tagged variable but no topology variable at all. -/
theorem C1_witness :
    load_grid_from_nc_dataset exDSGhost initGrid Option.none = .error .sgridNonCompliant :=
  C1_noncompliant exDSGhost (by decide) (by decide) initGrid Option.none

/-! ### Claim C8 -/

/-- C8: the load is a pure function of the dataset contents and the initial
grid container: resolving the same compliant dataset state twice (equal
datasets, equal initial grids) yields structurally identical results — in
particular structurally identical Grid Models on success. -/
theorem C8_deterministic (ds1 ds2 : NCDataset) (g1 g2 : Grid) (gtv : Option String)
    (hds : ds1 = ds2) (hg : g1 = g2) :
    load_grid_from_nc_dataset ds1 g1 gtv = load_grid_from_nc_dataset ds2 g2 gtv := by
  rw [hds, hg]

/-- C8 (witness): two runs over the concrete compliant dataset `exDS2`
agree. -/
theorem C8_witness :
    load_grid_from_nc_dataset exDS2 initGrid Option.none =
      load_grid_from_nc_dataset exDS2 initGrid Option.none :=
  C8_deterministic exDS2 exDS2 initGrid initGrid Option.none rfl rfl

/-! ### Claim C2 -/

/-- C2: for every dataset whose selected topology variable (the scan's
result) carries a `topology_dimension` attribute that is neither 2 nor 3,
the load raises exactly the dedicated unsupported-topology-dimension
`ValueError` — no other error class — and no Grid Model is returned. -/
theorem C2_unsupported_dim (ds : NCDataset) (s : String) (v : NCVar) (td : AVal)
    (hf : find_grid_topology_vars ds = .ok (some s))
    (hv : lookupVariable ds s = some v)
    (ht : getattr v "topology_dimension" = some td)
    (h2 : td ≠ .i 2) (h3 : td ≠ .i 3) :
    ∀ g, load_grid_from_nc_dataset ds g Option.none =
      .error (.valueErrorUnsupportedDim td) := by
  intro g
  unfold load_grid_from_nc_dataset sgrid_compliant_file
  rw [hf]
  simp [Except.map, Option.isSome, Except.bind, bind, hv, ht, h2, h3, pure]

/-- C2 (witness): the statement applied to the concrete dataset whose
topology variable carries topology dimension 4. -/
theorem C2_witness :
    load_grid_from_nc_dataset exDSDim4 initGrid Option.none =
      .error (.valueErrorUnsupportedDim (.i 4)) :=
  C2_unsupported_dim exDSDim4 "g4" exVGrid4 (.i 4) (by decide) (by decide) (by decide)
    (by decide) (by decide) initGrid

/-! ### Bind-decomposition helpers for `Except` -/

@[simp]
theorem error_bind {α β : Type} (e : PyErr) (f : α → Except PyErr β) :
    (Except.error e >>= f) = Except.error e := rfl

@[simp]
theorem ok_bind {α β : Type} (a : α) (f : α → Except PyErr β) :
    (Except.ok a >>= f) = f a := rfl

theorem bind_ok_imp {α β : Type} {x : Except PyErr α} {f : α → Except PyErr β} {b : β}
    (h : x >>= f = .ok b) : ∃ a, x = .ok a ∧ f a = .ok b := by
  rcases hx : x with e | a
  · rw [hx] at h
    simp at h
  · rw [hx] at h
    exact ⟨a, rfl, h⟩

theorem bind_ne_ok_of_all {α β : Type} {x : Except PyErr α} {f : α → Except PyErr β}
    (hf : ∀ a, ∀ b, f a ≠ .ok b) : ∀ b, x >>= f ≠ .ok b := by
  intro b h
  rcases bind_ok_imp h with ⟨a, _, hfa⟩
  exact hf a b hfa

/-! ### Claim C4 -/

/-- C4 (amended): `grid_times` is read from a variable named `time`; if no
such variable exists it is read from a variable named `Times`; when either
exists this step raises nothing, but when neither exists the load fails
with the *uncaught dictionary `KeyError` for `Times`* — the source defines
no dedicated "missing required time" error class — so the load can never
return a Grid Model. -/
theorem C4_time_fallback (ds : NCDataset) (g : Grid) :
    (∀ v, lookupVariable ds "time" = some v →
      SGridND.set_sgrid_time ds g = .ok (setA g "grid_times" (.arr v.data))) ∧
    (lookupVariable ds "time" = Option.none → ∀ v, lookupVariable ds "Times" = some v →
      SGridND.set_sgrid_time ds g = .ok (setA g "grid_times" (.arr v.data))) ∧
    (lookupVariable ds "time" = Option.none → lookupVariable ds "Times" = Option.none →
      ∀ gg gtv g', load_grid_from_nc_dataset ds gg gtv ≠ .ok g') := by
  refine ⟨?_, ?_, ?_⟩
  · intro v hv
    simp [SGridND.set_sgrid_time, hv]
  · intro h1 v hv
    simp [SGridND.set_sgrid_time, h1, hv]
  · intro h1 h2
    have htime : ∀ x, SGridND.set_sgrid_time ds x = .error (.keyError "Times") := by
      intro x
      simp [SGridND.set_sgrid_time, h1, h2]
    have hpipe2 : ∀ topo gg g', pipeline2D ds topo gg ≠ Except.ok g' := by
      intro topo gg
      unfold pipeline2D
      refine bind_ne_ok_of_all (fun g1 => ?_)
      refine bind_ne_ok_of_all (fun g2 => ?_)
      refine bind_ne_ok_of_all (fun g3 => ?_)
      refine bind_ne_ok_of_all (fun g4 => ?_)
      refine bind_ne_ok_of_all (fun g5 => ?_)
      refine bind_ne_ok_of_all (fun g6 => ?_)
      refine bind_ne_ok_of_all (fun g7 => ?_)
      intro g' h
      rcases bind_ok_imp h with ⟨a, ha, _⟩
      rw [htime] at ha
      simp at ha
    have hpipe3 : ∀ topo gg g', pipeline3D ds topo gg ≠ Except.ok g' := by
      intro topo gg
      unfold pipeline3D
      refine bind_ne_ok_of_all (fun g1 => ?_)
      refine bind_ne_ok_of_all (fun g2 => ?_)
      refine bind_ne_ok_of_all (fun g3 => ?_)
      refine bind_ne_ok_of_all (fun g4 => ?_)
      refine bind_ne_ok_of_all (fun g5 => ?_)
      refine bind_ne_ok_of_all (fun g6 => ?_)
      refine bind_ne_ok_of_all (fun g7 => ?_)
      intro g' h
      rcases bind_ok_imp h with ⟨a, ha, _⟩
      rw [htime] at ha
      simp at ha
    intro gg gtv
    unfold load_grid_from_nc_dataset
    refine bind_ne_ok_of_all (fun c => ?_)
    rcases c with _ | _
    · intro g' h
      simp at h
    · refine bind_ne_ok_of_all (fun gtva => ?_)
      refine bind_ne_ok_of_all (fun topo => ?_)
      intro g' h
      split at h
      · simp at h
      · split at h
        · exact hpipe2 topo _ g' h
        · split at h
          · exact hpipe3 topo _ g' h
          · simp at h

/-- C4 (witness): on `exDS2` the `time` variable is read into `grid_times`;
on `exDSNoTime` (no `time`, no `Times`) the load returns no Grid Model. -/
theorem C4_witness :
    SGridND.set_sgrid_time exDS2 initGrid =
      .ok (setA initGrid "grid_times" (.arr [0, 1])) ∧
    (∀ g', load_grid_from_nc_dataset exDSNoTime initGrid Option.none ≠ .ok g') :=
  ⟨(C4_time_fallback exDS2 initGrid).1
      { name := "time", dims := ["t"], attrs := [], data := [0, 1] } (by decide),
   (C4_time_fallback exDSNoTime initGrid).2.2 (by decide) (by decide) initGrid Option.none⟩

/-- C4 (counterexample): the claim announces a *classified*
`MissingRequiredTimeError`; on a concrete compliant dataset with neither
`time` nor `Times` the load instead raises the generic dictionary
`KeyError "Times"` — the same error class as any other missing-key lookup,
not a dedicated classified error. -/
theorem C4_counterexample :
    lookupVariable exDSNoTime "time" = Option.none ∧
    lookupVariable exDSNoTime "Times" = Option.none ∧
    load_grid_from_nc_dataset exDSNoTime initGrid Option.none = .error (.keyError "Times") :=
  ⟨by decide, by decide, by decide⟩


/-! ### Grid-state lemmas -/

theorem getA_cons (k1 : String) (v1 : PyVal) (rest : Grid) (k : String) :
    getA ((k1, v1) :: rest) k = if k1 = k then some v1 else getA rest k := by
  by_cases h : k1 = k
  · simp [getA, List.find?_cons_of_pos, h]
  · simp [getA, List.find?_cons_of_neg, h]

theorem getA_setA (g : Grid) (k : String) (v : PyVal) (k' : String) :
    getA (setA g k v) k' = if k' = k then some v else getA g k' := by
  induction g with
  | nil =>
    show getA [(k, v)] k' = _
    rw [getA_cons]
    by_cases h : k' = k
    · subst h
      simp
    · rw [if_neg (fun hh => h hh.symm), if_neg h]
  | cons p rest ih =>
    rcases p with ⟨k1, v1⟩
    show getA (if k1 = k then (k, v) :: rest else (k1, v1) :: setA rest k v) k' = _
    by_cases h1 : k1 = k
    · subst h1
      rw [if_pos rfl, getA_cons, getA_cons]
      by_cases h2 : k1 = k'
      · subst h2
        simp
      · rw [if_neg h2, if_neg (fun hh => h2 hh.symm), if_neg h2]
    · rw [if_neg h1, getA_cons, getA_cons]
      by_cases h2 : k1 = k'
      · subst h2
        rw [if_pos rfl, if_pos rfl, if_neg h1]
      · rw [if_neg h2, if_neg h2, ih]

theorem getA_filter_self (g : Grid) (k : String) :
    getA (g.filter (fun p => p.1 ≠ k)) k = Option.none := by
  induction g with
  | nil => rfl
  | cons p rest ih =>
    rcases p with ⟨k1, v1⟩
    by_cases h : k1 = k
    · simp only [List.filter_cons]
      rw [if_neg (by simp [h])]
      exact ih
    · simp only [List.filter_cons]
      rw [if_pos (by simp [h]), getA_cons, if_neg h]
      exact ih

theorem getA_filter_other (g : Grid) (k k' : String) (h : k' ≠ k) :
    getA (g.filter (fun p => p.1 ≠ k)) k' = getA g k' := by
  induction g with
  | nil => rfl
  | cons p rest ih =>
    rcases p with ⟨k1, v1⟩
    by_cases h1 : k1 = k
    · simp only [List.filter_cons]
      rw [if_neg (by simp [h1])]
      rw [ih, getA_cons, if_neg (by rw [h1]; exact fun hh => h hh.symm)]
    · simp only [List.filter_cons]
      rw [if_pos (by simp [h1]), getA_cons, getA_cons, ih]

theorem getA_delA (g : Grid) (k : String) (g2 : Grid) (h : delA g k = .ok g2)
    (k' : String) :
    getA g2 k' = if k' = k then Option.none else getA g k' := by
  unfold delA at h
  by_cases hany : List.any g (fun p => p.1 = k)
  · rw [if_pos hany] at h
    have hg2 : g2 = g.filter (fun p => p.1 ≠ k) := (Except.ok.inj h).symm
    subst hg2
    by_cases hk : k' = k
    · subst hk
      rw [if_pos rfl, getA_filter_self]
    · rw [if_neg hk, getA_filter_other g k k' hk]
  · rw [if_neg hany] at h
    exact absurd h (by simp)

/-! ### Presence monotonicity of the resolver steps -/

/-- A fallible resolver step never removes attributes. -/
def PresMono (f : Grid → Except PyErr Grid) : Prop :=
  ∀ g g2, f g = .ok g2 → ∀ k, (getA g k).isSome = true → (getA g2 k).isSome = true

theorem presMono_setA (g : Grid) (k0 : String) (v : PyVal) (k : String)
    (h : (getA g k).isSome = true) : (getA (setA g k0 v) k).isSome = true := by
  rw [getA_setA]
  by_cases hk : k = k0 <;> simp [hk, h]

theorem presMono_setDimsGroup (topo : NCVar) (a b c : String) :
    PresMono (SGridND.setDimsGroup topo a b c) := by
  intro g g2 h k hk
  unfold SGridND.setDimsGroup at h
  split at h
  · obtain rfl := Except.ok.inj h
    exact hk
  · rcases bind_ok_imp h with ⟨pads, _, h2⟩
    obtain rfl := Except.ok.inj h2
    exact presMono_setA _ _ _ _ (presMono_setA _ _ _ _ hk)

theorem presMono_setCoordsGroup (topo : NCVar) (a b : String) :
    PresMono (SGridND.setCoordsGroup topo a b) := by
  intro g g2 h k hk
  unfold SGridND.setCoordsGroup at h
  split at h
  · obtain rfl := Except.ok.inj h
    exact hk
  · rcases bind_ok_imp h with ⟨t, _, h2⟩
    obtain rfl := Except.ok.inj h2
    exact presMono_setA _ _ _ _ hk

theorem presMono_set_sgrid_topology (topo : NCVar) :
    PresMono (SGridND.set_sgrid_topology topo) := by
  intro g g2 h k hk
  unfold SGridND.set_sgrid_topology at h
  split at h
  · exact absurd h (by simp)
  · obtain rfl := Except.ok.inj h
    exact presMono_setA _ _ _ _ hk

theorem presMono_node_coordinates (ds : NCDataset) (topo : NCVar) :
    PresMono (SGridND.set_sgrid_node_coordinates ds topo) := by
  intro g g2 h k hk
  unfold SGridND.set_sgrid_node_coordinates at h
  split at h
  · exact absurd h (by simp)
  · split at h
    · obtain rfl := Except.ok.inj h
      exact presMono_setA _ _ _ _ (presMono_setA _ _ _ _ hk)
    · rcases bind_ok_imp h with ⟨t, _, h2⟩
      obtain rfl := Except.ok.inj h2
      exact presMono_setA _ _ _ _ (presMono_setA _ _ _ _ hk)

theorem presMono_all_edge (topo : NCVar) :
    PresMono (SGridND.set_all_edge_attributes topo) := by
  intro g g2 h k hk
  unfold SGridND.set_all_edge_attributes at h
  rcases bind_ok_imp h with ⟨a1, h1, h⟩
  rcases bind_ok_imp h with ⟨a2, h2, h⟩
  rcases bind_ok_imp h with ⟨a3, h3, h⟩
  rcases bind_ok_imp h with ⟨a4, h4, h⟩
  obtain rfl := Except.ok.inj h
  exact presMono_setCoordsGroup topo _ _ _ _ h4 k
    (presMono_setDimsGroup topo _ _ _ _ _ h3 k
      (presMono_setCoordsGroup topo _ _ _ _ h2 k
        (presMono_setDimsGroup topo _ _ _ _ _ h1 k hk)))

theorem presMono_face_coordindates (ds : NCDataset) (topo : NCVar) :
    PresMono (SGrid2D.set_face_coordindates ds topo) := by
  intro g g2 h k hk
  unfold SGrid2D.set_face_coordindates at h
  split at h
  · rcases bind_ok_imp h with ⟨r, _, h2⟩
    obtain rfl := Except.ok.inj h2
    exact presMono_setA _ _ _ _ hk
  · rcases bind_ok_imp h with ⟨t, _, h2⟩
    obtain rfl := Except.ok.inj h2
    exact presMono_setA _ _ _ _ hk

theorem presMono_all_face2 (ds : NCDataset) (topo : NCVar) :
    PresMono (SGrid2D.set_all_face_attributes ds topo) := by
  intro g g2 h k hk
  unfold SGrid2D.set_all_face_attributes at h
  rcases bind_ok_imp h with ⟨a1, h1, h⟩
  rcases bind_ok_imp h with ⟨a2, h2, h⟩
  obtain rfl := Except.ok.inj h
  exact presMono_face_coordindates ds topo _ _ h2 k
    (presMono_setDimsGroup topo _ _ _ _ _ h1 k hk)

theorem presMono_volume_coordinates (ds : NCDataset) (topo : NCVar) :
    PresMono (SGrid3D.set_volume_coordinates ds topo) := by
  intro g g2 h k hk
  unfold SGrid3D.set_volume_coordinates at h
  split at h
  · rcases bind_ok_imp h with ⟨r, _, h2⟩
    obtain rfl := Except.ok.inj h2
    exact presMono_setA _ _ _ _ hk
  · rcases bind_ok_imp h with ⟨t, _, h2⟩
    obtain rfl := Except.ok.inj h2
    exact presMono_setA _ _ _ _ hk

theorem presMono_all_edge3 (topo : NCVar) :
    PresMono (SGrid3D.set_all_edge_attributes topo) := by
  intro g g2 h k hk
  unfold SGrid3D.set_all_edge_attributes at h
  rcases bind_ok_imp h with ⟨a1, h1, h⟩
  rcases bind_ok_imp h with ⟨a2, h2, h⟩
  rcases bind_ok_imp h with ⟨a3, h3, h⟩
  rcases bind_ok_imp h with ⟨a4, h4, h⟩
  rcases bind_ok_imp h with ⟨a5, h5, h⟩
  rcases bind_ok_imp h with ⟨a6, h6, h⟩
  obtain rfl := Except.ok.inj h
  exact presMono_setCoordsGroup topo _ _ _ _ h6 k
    (presMono_setDimsGroup topo _ _ _ _ _ h5 k
      (presMono_setCoordsGroup topo _ _ _ _ h4 k
        (presMono_setDimsGroup topo _ _ _ _ _ h3 k
          (presMono_setCoordsGroup topo _ _ _ _ h2 k
            (presMono_setDimsGroup topo _ _ _ _ _ h1 k hk)))))

theorem presMono_all_face3 (topo : NCVar) :
    PresMono (SGrid3D.set_all_face_attributes topo) := by
  intro g g2 h k hk
  unfold SGrid3D.set_all_face_attributes at h
  rcases bind_ok_imp h with ⟨a1, h1, h⟩
  rcases bind_ok_imp h with ⟨a2, h2, h⟩
  rcases bind_ok_imp h with ⟨a3, h3, h⟩
  rcases bind_ok_imp h with ⟨a4, h4, h⟩
  rcases bind_ok_imp h with ⟨a5, h5, h⟩
  rcases bind_ok_imp h with ⟨a6, h6, h⟩
  obtain rfl := Except.ok.inj h
  exact presMono_setCoordsGroup topo _ _ _ _ h6 k
    (presMono_setDimsGroup topo _ _ _ _ _ h5 k
      (presMono_setCoordsGroup topo _ _ _ _ h4 k
        (presMono_setDimsGroup topo _ _ _ _ _ h3 k
          (presMono_setCoordsGroup topo _ _ _ _ h2 k
            (presMono_setDimsGroup topo _ _ _ _ _ h1 k hk)))))

theorem presMono_cell_center2 (ds : NCDataset) :
    PresMono (SGrid2D.set_cell_center_lat_lon ds) := by
  intro g g2 h k hk
  unfold SGrid2D.set_cell_center_lat_lon at h
  rcases bind_ok_imp h with ⟨p, _, h⟩
  rcases bind_ok_imp h with ⟨lat, _, h⟩
  rcases bind_ok_imp h with ⟨lon, _, h⟩
  obtain rfl := Except.ok.inj h
  exact presMono_setA _ _ _ _ hk

theorem presMono_cell_node2 (ds : NCDataset) :
    PresMono (SGrid2D.set_cell_node_lat_lon ds) := by
  intro g g2 h k hk
  unfold SGrid2D.set_cell_node_lat_lon at h
  rcases bind_ok_imp h with ⟨p, _, h⟩
  rcases bind_ok_imp h with ⟨lat, _, h⟩
  rcases bind_ok_imp h with ⟨lon, _, h⟩
  obtain rfl := Except.ok.inj h
  exact presMono_setA _ _ _ _ hk

theorem presMono_cell_center3 (ds : NCDataset) :
    PresMono (SGrid3D.set_cell_center_lat_lon ds) := by
  intro g g2 h k hk
  unfold SGrid3D.set_cell_center_lat_lon at h
  split at h
  · split at h
    · rcases bind_ok_imp h with ⟨lon, _, h⟩
      rcases bind_ok_imp h with ⟨lat, _, h⟩
      obtain rfl := Except.ok.inj h
      exact presMono_setA _ _ _ _ hk
    · exact absurd h (by simp)
  · exact absurd h (by simp)

theorem presMono_time (ds : NCDataset) :
    PresMono (SGridND.set_sgrid_time ds) := by
  intro g g2 h k hk
  unfold SGridND.set_sgrid_time at h
  split at h
  · obtain rfl := Except.ok.inj h
    exact presMono_setA _ _ _ _ hk
  · split at h
    · obtain rfl := Except.ok.inj h
      exact presMono_setA _ _ _ _ hk
    · exact absurd h (by simp)

theorem presMono_angles (ds : NCDataset) (g : Grid) (k : String)
    (hk : (getA g k).isSome = true) :
    (getA (SGridND.set_sgrid_angles ds g) k).isSome = true := by
  unfold SGridND.set_sgrid_angles
  split
  · exact presMono_setA _ _ _ _ hk
  · exact hk

theorem presMono_svaFold (l : List NCVar) :
    ∀ (acc : Grid × List String × List String) (k : String),
      (getA acc.1 k).isSome = true →
      (getA (l.foldl SGridND.svaStep acc).1 k).isSome = true := by
  induction l with
  | nil => intro acc k hk; exact hk
  | cons v rest ih =>
    intro acc k hk
    refine ih (SGridND.svaStep acc v) k ?_
    exact presMono_setA _ _ _ _ hk

theorem presMono_varattrs (ds : NCDataset) (g : Grid) (k : String)
    (hk : (getA g k).isSome = true) :
    (getA (SGridND.set_sgrid_variable_attributes ds g) k).isSome = true := by
  unfold SGridND.set_sgrid_variable_attributes
  exact presMono_setA _ _ _ _ (presMono_setA _ _ _ _ (presMono_svaFold ds.vars (g, [], []) k hk))

/-! ### The deleted attribute groups -/

/-- The fifteen 3-D-only attributes `SGrid2D.delete_nd_attributes` deletes,
in delete order. -/
def del2Keys : List String :=
  ["volume_padding", "volume_dimensions", "volume_coordinates",
   "face1_padding", "face1_coordinates", "face1_dimensions",
   "face2_padding", "face2_coordinates", "face2_dimensions",
   "face3_padding", "face3_coordinates", "face3_dimensions",
   "edge3_padding", "edge3_coordinates", "edge3_dimensions"]

/-- The five 2-D-only attributes `SGrid3D.delete_nd_attributes` deletes, in
delete order. -/
def del3Keys : List String :=
  ["face_padding", "face_coordinates", "face_dimensions",
   "vertical_padding", "vertical_dimensions"]

theorem delete2_spec (g g' : Grid) (h : SGrid2D.delete_nd_attributes g = .ok g') :
    (∀ k ∈ del2Keys, getA g' k = Option.none) ∧
    (∀ k, k ∉ del2Keys → getA g' k = getA g k) := by
  unfold SGrid2D.delete_nd_attributes at h
  rcases bind_ok_imp h with ⟨g1, h1, h⟩
  rcases bind_ok_imp h with ⟨g2, h2, h⟩
  rcases bind_ok_imp h with ⟨g3, h3, h⟩
  rcases bind_ok_imp h with ⟨g4, h4, h⟩
  rcases bind_ok_imp h with ⟨g5, h5, h⟩
  rcases bind_ok_imp h with ⟨g6, h6, h⟩
  rcases bind_ok_imp h with ⟨g7, h7, h⟩
  rcases bind_ok_imp h with ⟨g8, h8, h⟩
  rcases bind_ok_imp h with ⟨g9, h9, h⟩
  rcases bind_ok_imp h with ⟨g10, h10, h⟩
  rcases bind_ok_imp h with ⟨g11, h11, h⟩
  rcases bind_ok_imp h with ⟨g12, h12, h⟩
  rcases bind_ok_imp h with ⟨g13, h13, h⟩
  rcases bind_ok_imp h with ⟨g14, h14, h⟩
  rcases bind_ok_imp h with ⟨g15, h15, h⟩
  obtain rfl := Except.ok.inj h
  have e1 := getA_delA _ _ _ h1
  have e2 := getA_delA _ _ _ h2
  have e3 := getA_delA _ _ _ h3
  have e4 := getA_delA _ _ _ h4
  have e5 := getA_delA _ _ _ h5
  have e6 := getA_delA _ _ _ h6
  have e7 := getA_delA _ _ _ h7
  have e8 := getA_delA _ _ _ h8
  have e9 := getA_delA _ _ _ h9
  have e10 := getA_delA _ _ _ h10
  have e11 := getA_delA _ _ _ h11
  have e12 := getA_delA _ _ _ h12
  have e13 := getA_delA _ _ _ h13
  have e14 := getA_delA _ _ _ h14
  have e15 := getA_delA _ _ _ h15
  constructor
  · intro k hk
    simp only [del2Keys, List.mem_cons, List.not_mem_nil, or_false] at hk
    rcases hk with rfl | rfl | rfl | rfl | rfl | rfl | rfl | rfl | rfl | rfl | rfl | rfl |
      rfl | rfl | rfl <;>
      simp [e1, e2, e3, e4, e5, e6, e7, e8, e9, e10, e11, e12, e13, e14, e15]
  · intro k hk
    simp only [del2Keys, List.mem_cons, List.not_mem_nil, or_false, not_or] at hk
    obtain ⟨n1, n2, n3, n4, n5, n6, n7, n8, n9, n10, n11, n12, n13, n14, n15⟩ := hk
    rw [e15 k, if_neg n15, e14 k, if_neg n14, e13 k, if_neg n13, e12 k, if_neg n12,
      e11 k, if_neg n11, e10 k, if_neg n10, e9 k, if_neg n9, e8 k, if_neg n8,
      e7 k, if_neg n7, e6 k, if_neg n6, e5 k, if_neg n5, e4 k, if_neg n4,
      e3 k, if_neg n3, e2 k, if_neg n2, e1 k, if_neg n1]

theorem delete3_spec (g g' : Grid) (h : SGrid3D.delete_nd_attributes g = .ok g') :
    (∀ k ∈ del3Keys, getA g' k = Option.none) ∧
    (∀ k, k ∉ del3Keys → getA g' k = getA g k) := by
  unfold SGrid3D.delete_nd_attributes at h
  rcases bind_ok_imp h with ⟨g1, h1, h⟩
  rcases bind_ok_imp h with ⟨g2, h2, h⟩
  rcases bind_ok_imp h with ⟨g3, h3, h⟩
  rcases bind_ok_imp h with ⟨g4, h4, h⟩
  rcases bind_ok_imp h with ⟨g5, h5, h⟩
  obtain rfl := Except.ok.inj h
  have e1 := getA_delA _ _ _ h1
  have e2 := getA_delA _ _ _ h2
  have e3 := getA_delA _ _ _ h3
  have e4 := getA_delA _ _ _ h4
  have e5 := getA_delA _ _ _ h5
  constructor
  · intro k hk
    simp only [del3Keys, List.mem_cons, List.not_mem_nil, or_false] at hk
    rcases hk with rfl | rfl | rfl | rfl | rfl <;> simp [e1, e2, e3, e4, e5]
  · intro k hk
    simp only [del3Keys, List.mem_cons, List.not_mem_nil, or_false, not_or] at hk
    obtain ⟨n1, n2, n3, n4, n5⟩ := hk
    rw [e5 k, if_neg n5, e4 k, if_neg n4, e3 k, if_neg n3, e2 k, if_neg n2, e1 k, if_neg n1]

theorem pipeline2D_groups (ds : NCDataset) (topo : NCVar) (g0 g' : Grid)
    (h : pipeline2D ds topo g0 = .ok g') :
    (∀ k ∈ del2Keys, getA g' k = Option.none) ∧
    (∀ k, k ∉ del2Keys → (getA g0 k).isSome = true → (getA g' k).isSome = true) := by
  unfold pipeline2D at h
  rcases bind_ok_imp h with ⟨g1, h1, h⟩
  rcases bind_ok_imp h with ⟨g2, h2, h⟩
  rcases bind_ok_imp h with ⟨g3, h3, h⟩
  rcases bind_ok_imp h with ⟨g4, h4, h⟩
  rcases bind_ok_imp h with ⟨g5, h5, h⟩
  rcases bind_ok_imp h with ⟨g6, h6, h⟩
  rcases bind_ok_imp h with ⟨g7, h7, h⟩
  rcases bind_ok_imp h with ⟨g8, h8, h⟩
  rcases bind_ok_imp h with ⟨g9, h9, h⟩
  obtain rfl := Except.ok.inj h
  have hdel := delete2_spec _ _ h9
  refine ⟨hdel.1, ?_⟩
  intro k hk hp
  have hp0 : (getA (SGridND.set_topology_dimension 2 (SGridND.set_dimensions ds g0)) k).isSome
      = true := by
    unfold SGridND.set_topology_dimension SGridND.set_dimensions
    exact presMono_setA _ _ _ _ (presMono_setA _ _ _ _ hp)
  have p1 := presMono_set_sgrid_topology topo _ _ h1 k hp0
  have p2 := presMono_setDimsGroup topo "vertical_dimensions" "vertical_dimensions"
    "vertical_padding" _ _ h2 k p1
  have p3 := presMono_node_coordinates ds topo _ _ h3 k p2
  have p4 := presMono_all_edge topo _ _ h4 k p3
  have p5 := presMono_all_face2 ds topo _ _ h5 k p4
  have p6 := presMono_cell_center2 ds _ _ h6 k p5
  have p7 := presMono_cell_node2 ds _ _ h7 k p6
  have p8 : (getA g8 k).isSome = true :=
    presMono_time ds _ _ h8 k (presMono_angles ds g7 k p7)
  have p9 : (getA (SGridND.set_sgrid_variable_attributes ds g8) k).isSome = true :=
    presMono_varattrs ds g8 k p8
  rw [hdel.2 k hk]
  exact p9

theorem pipeline3D_groups (ds : NCDataset) (topo : NCVar) (g0 g' : Grid)
    (h : pipeline3D ds topo g0 = .ok g') :
    (∀ k ∈ del3Keys, getA g' k = Option.none) ∧
    (∀ k, k ∉ del3Keys → (getA g0 k).isSome = true → (getA g' k).isSome = true) := by
  unfold pipeline3D at h
  rcases bind_ok_imp h with ⟨g1, h1, h⟩
  rcases bind_ok_imp h with ⟨g2, h2, h⟩
  rcases bind_ok_imp h with ⟨g3, h3, h⟩
  rcases bind_ok_imp h with ⟨g4, h4, h⟩
  rcases bind_ok_imp h with ⟨g5, h5, h⟩
  rcases bind_ok_imp h with ⟨g6, h6, h⟩
  rcases bind_ok_imp h with ⟨g7, h7, h⟩
  rcases bind_ok_imp h with ⟨g8, h8, h⟩
  rcases bind_ok_imp h with ⟨g9, h9, h⟩
  obtain rfl := Except.ok.inj h
  have hdel := delete3_spec _ _ h9
  refine ⟨hdel.1, ?_⟩
  intro k hk hp
  have hp0 : (getA (SGridND.set_topology_dimension 3 (SGridND.set_dimensions ds g0)) k).isSome
      = true := by
    unfold SGridND.set_topology_dimension SGridND.set_dimensions
    exact presMono_setA _ _ _ _ (presMono_setA _ _ _ _ hp)
  have p1 := presMono_set_sgrid_topology topo _ _ h1 k hp0
  have p2 := presMono_node_coordinates ds topo _ _ h2 k p1
  have p3 := presMono_all_edge3 topo _ _ h3 k p2
  have p4 := presMono_all_face3 topo _ _ h4 k p3
  have p5 := presMono_setDimsGroup topo "volume_dimensions" "volume_dimensions"
    "volume_padding" _ _ h5 k p4
  have p6 := presMono_volume_coordinates ds topo _ _ h6 k p5
  have p7 := presMono_cell_center3 ds _ _ h7 k p6
  have p8 : (getA g8 k).isSome = true :=
    presMono_time ds _ _ h8 k (presMono_angles ds (SGrid3D.set_cell_node_lat_lon g7) k p7)
  have p9 : (getA (SGridND.set_sgrid_variable_attributes ds g8) k).isSome = true :=
    presMono_varattrs ds g8 k p8
  rw [hdel.2 k hk]
  exact p9

theorem load_ok_decompose (ds : NCDataset) (g g' : Grid)
    (hl : load_grid_from_nc_dataset ds g Option.none = .ok g') :
    ∃ s v, find_grid_topology_vars ds = .ok (some s) ∧ lookupVariable ds s = some v ∧
      ∃ td, getattr v "topology_dimension" = some td ∧
        ((td = .i 2 ∧ pipeline2D ds v
            (setA (setA g "dimensions" (.dims ds.dims)) "grid_topology_vars" (.str s)) =
              .ok g') ∨
         (td = .i 3 ∧ pipeline3D ds v
            (setA (setA g "dimensions" (.dims ds.dims)) "grid_topology_vars" (.str s)) =
              .ok g')) := by
  unfold load_grid_from_nc_dataset at hl
  rcases bind_ok_imp hl with ⟨c, hc, hl⟩
  rcases c with _ | _
  · simp at hl
  · rcases bind_ok_imp hl with ⟨gtva, hgt, hl⟩
    have hgt2 : find_grid_topology_vars ds = .ok gtva := hgt
    have hsome : gtva.isSome = true := by
      unfold sgrid_compliant_file at hc
      rw [hgt2] at hc
      have : Option.isSome gtva = true ∨ Option.isSome gtva = false := by
        rcases gtva <;> simp
      rcases this with hh | hh
      · exact hh
      · rw [Except.map, hh] at hc
        exact absurd (Except.ok.inj hc) (by simp)
    rcases hgv : gtva with _ | s
    · rw [hgv] at hsome
      simp at hsome
    · rw [hgv] at hl hgt2
      rcases bind_ok_imp hl with ⟨topo, htopo, hl⟩
      have htopo2 : (match lookupVariable ds s with
        | some w => Except.ok w
        | Option.none => Except.error (PyErr.keyError s)) = Except.ok topo := htopo
      split at htopo2
      · rename_i w hw
        have hwt : w = topo := Except.ok.inj htopo2
        subst hwt
        refine ⟨s, w, hgt2, ?_, ?_⟩
        · exact hw
        · split at hl
          · exact absurd hl (by simp)
          · rename_i td htd
            split at hl
            · rename_i ht2
              exact ⟨td, htd, Or.inl ⟨ht2, hl⟩⟩
            · split at hl
              · rename_i ht2 ht3
                exact ⟨td, htd, Or.inr ⟨ht3, hl⟩⟩
              · exact absurd hl (by simp)
      · exact absurd htopo2 (by simp)

/-! ### Claim C5 -/

/-- C5 (counterexample): the claim says a Grid Model produced for topology
dimension 2 has the 2-D-only attribute group *set*; on a compliant 2-D
dataset whose topology variable lacks `face_dimensions`, the load succeeds
and the resulting model's `face_dimensions` is present but *unset*
(`None`), not set. -/
theorem C5_counterexample :
    load_grid_from_nc_dataset exDS2 initGrid Option.none = .ok exLoaded2 ∧
    getattr exVGrid2 "topology_dimension" = some (.i 2) ∧
    getattr exVGrid2 "face_dimensions" = Option.none ∧
    getA exLoaded2 "face_dimensions" = some PyVal.none :=
  ⟨by decide, by decide, by decide, by decide⟩

/-- C5 (amended): after a successful load of the default Grid Model, a
model produced for topology dimension 2 has every 3-D-only attribute
(`face1/2/3_*`, `edge3_*`, `volume_*` — the `del2Keys`) absent, not merely
unset, and every 2-D-only attribute (`face_*`, `vertical_*` — the
`del3Keys`) still *present* on the model (set when its source attribute
existed, else present but unset); a model produced for topology dimension 3
is the mirror image. -/
theorem C5_group_presence (ds : NCDataset) (g' : Grid) (s : String) (v : NCVar)
    (hf : find_grid_topology_vars ds = .ok (some s))
    (hv : lookupVariable ds s = some v)
    (hl : load_grid_from_nc_dataset ds initGrid Option.none = .ok g') :
    (getattr v "topology_dimension" = some (.i 2) →
      (∀ k ∈ del2Keys, getA g' k = Option.none) ∧
      (∀ k ∈ del3Keys, (getA g' k).isSome = true)) ∧
    (getattr v "topology_dimension" = some (.i 3) →
      (∀ k ∈ del3Keys, getA g' k = Option.none) ∧
      (∀ k ∈ del2Keys, (getA g' k).isSome = true)) := by
  obtain ⟨s', v', hf', hv', td, htd, hcase⟩ := load_ok_decompose ds initGrid g' hl
  have hs : s = s' := by
    rw [hf] at hf'
    exact Option.some.inj (Except.ok.inj hf')
  subst hs
  have hvv : v = v' := by
    rw [hv] at hv'
    exact Option.some.inj hv'
  subst hvv
  have hginit : ∀ k, k ∈ del2Keys ∨ k ∈ del3Keys →
      (getA (setA (setA initGrid "dimensions" (.dims ds.dims)) "grid_topology_vars"
        (.str s)) k).isSome = true := by
    intro k hk
    rw [getA_setA, getA_setA]
    rcases hk with hk | hk
    · simp only [del2Keys, List.mem_cons, List.not_mem_nil, or_false] at hk
      rcases hk with rfl | rfl | rfl | rfl | rfl | rfl | rfl | rfl | rfl | rfl | rfl | rfl |
        rfl | rfl | rfl <;>
        (rw [if_neg (by decide), if_neg (by decide)]; decide)
    · simp only [del3Keys, List.mem_cons, List.not_mem_nil, or_false] at hk
      rcases hk with rfl | rfl | rfl | rfl | rfl <;>
        (rw [if_neg (by decide), if_neg (by decide)]; decide)
  constructor
  · intro h2d
    have htd2 : td = .i 2 := by
      rw [htd] at h2d
      exact Option.some.inj h2d
    subst htd2
    rcases hcase with ⟨_, hp⟩ | ⟨h3, _⟩
    · have hgr := pipeline2D_groups ds v _ g' hp
      refine ⟨hgr.1, ?_⟩
      intro k hk
      have hnot : k ∉ del2Keys := by
        simp only [del3Keys, List.mem_cons, List.not_mem_nil, or_false] at hk
        rcases hk with rfl | rfl | rfl | rfl | rfl <;> decide
      exact hgr.2 k hnot (hginit k (Or.inr hk))
    · exact absurd h3 (by decide)
  · intro h3d
    have htd3 : td = .i 3 := by
      rw [htd] at h3d
      exact Option.some.inj h3d
    subst htd3
    rcases hcase with ⟨h2, _⟩ | ⟨_, hp⟩
    · exact absurd h2 (by decide)
    · have hgr := pipeline3D_groups ds v _ g' hp
      refine ⟨hgr.1, ?_⟩
      intro k hk
      have hnot : k ∉ del3Keys := by
        simp only [del2Keys, List.mem_cons, List.not_mem_nil, or_false] at hk
        rcases hk with rfl | rfl | rfl | rfl | rfl | rfl | rfl | rfl | rfl | rfl | rfl | rfl |
          rfl | rfl | rfl <;> decide
      exact hgr.2 k hnot (hginit k (Or.inl hk))

/-- C5 (witness): the amended statement applied to the concrete 2-D and 3-D
loads: on the 2-D model `volume_padding` is absent while `face_coordinates`
is present; on the 3-D model `face_dimensions` is absent while
`volume_coordinates` is present. -/
theorem C5_witness :
    (getA exLoaded2 "volume_padding" = Option.none ∧
      (getA exLoaded2 "face_coordinates").isSome = true) ∧
    (getA exLoaded3 "face_dimensions" = Option.none ∧
      (getA exLoaded3 "volume_coordinates").isSome = true) := by
  have h2 := C5_group_presence exDS2 exLoaded2 "grid" exVGrid2
    (by decide) (by decide) (by decide)
  have h3 := C5_group_presence exDS3 exLoaded3 "grid3" exVGrid3
    (by decide) (by decide) (by decide)
  exact ⟨⟨(h2.1 (by decide)).1 "volume_padding" (by decide),
          (h2.1 (by decide)).2 "face_coordinates" (by decide)⟩,
         ⟨(h3.2 (by decide)).1 "face_dimensions" (by decide),
          (h3.2 (by decide)).2 "volume_coordinates" (by decide)⟩⟩

/-! ### Claim C6 -/

/-- The first face-located variable of `exDSFace`: no `coordinates`
attribute, so its fallback classification fills x from `lonA`; the later
`B` carries a `coordinates` attribute whose tokens overwrite x, fill y and
stop the loop. -/
def exVFaceA : NCVar :=
  { name := "A", dims := ["d1"], attrs := [("location", .s "face")], data := [] }

/-- See `exVFaceA`: the dataset around it. -/
def exDSFace : NCDataset :=
  { dims := [("d1", 2), ("e1", 2)],
    vars :=
      [exVFaceA,
       { name := "lonA", dims := ["d1"], attrs := [], data := [] },
       { name := "B", dims := ["e1"],
         attrs := [("location", .s "face"), ("coordinates", .s "lonB latB")], data := [] },
       { name := "lonB", dims := ["e1"], attrs := [], data := [] },
       { name := "latB", dims := ["e1"], attrs := [], data := [] }] }

/-- C6 (counterexample): the claim says coordinate inference returns none
or a tuple; when a face-located variable's `coordinates` attribute names a
variable that does not exist, the inference instead raises the lookup
`KeyError` and returns nothing. -/
theorem C6_counterexample :
    search_variables_by_location exDSGhost "face" = ["u"] ∧
    find_coordinates_by_location exDSGhost "face" 2 = .error (.keyError "ghost") :=
  ⟨by decide, by decide⟩

/-- C6 (amended): provided classification completes without an error (every
encountered `coordinates` attribute is a string whose tokens name existing
variables), `find_coordinates_by_location` returns none when no variable
carries the location tag, returns none when a required slot is unfilled
after classification, and otherwise returns a tuple of exactly 2 names when
the topology dimension is 2 and exactly 3 names otherwise. -/
theorem C6_result_shape :
    (∀ ds loc td, search_variables_by_location ds loc = [] →
      find_coordinates_by_location ds loc td = .ok Option.none) ∧
    (∀ ds loc td st,
      fcblLoop ds (search_variables_by_location ds loc)
        ⟨Option.none, Option.none, Option.none⟩ = .ok st →
      (st.x = Option.none ∨ st.y = Option.none ∨ (td ≠ 2 ∧ st.z = Option.none)) →
      find_coordinates_by_location ds loc td = .ok Option.none) ∧
    (∀ ds loc td xs, find_coordinates_by_location ds loc td = .ok (some xs) →
      xs.length = if td = 2 then 2 else 3) := by
  refine ⟨?_, ?_, ?_⟩
  · intro ds loc td h
    unfold find_coordinates_by_location
    rw [h]
    by_cases htd : td = 2 <;> simp [fcblLoop, htd, truthyOpt, pure, Except.pure]
  · intro ds loc td st hst hun
    unfold find_coordinates_by_location
    rw [hst]
    simp only [ok_bind]
    rcases hun with hx | hy | ⟨hne, hz⟩
    · by_cases htd : td = 2 <;> simp [htd, truthyOpt, hx, pure, Except.pure]
    · by_cases htd : td = 2 <;> simp [htd, truthyOpt, hy, pure, Except.pure]
    · simp [if_neg hne, truthyOpt, hz, pure, Except.pure]
  · intro ds loc td xs h
    unfold find_coordinates_by_location at h
    rcases bind_ok_imp h with ⟨st, hst, h2⟩
    split at h2
    · rename_i htd
      have h3 : (if ([st.x, st.y] : List (Option String)).all truthyOpt = true then
          (pure (some (List.map (fun c => c.getD "") [st.x, st.y])) :
            Except PyErr (Option (List String)))
          else pure Option.none) = Except.ok (some xs) := h2
      split at h3
      · have hxs := Option.some.inj (Except.ok.inj h3)
        subst hxs
        simp [htd]
      · exact absurd (Except.ok.inj h3) (by simp)
    · rename_i htd
      have h3 : (if ([st.x, st.y, st.z] : List (Option String)).all truthyOpt = true then
          (pure (some (List.map (fun c => c.getD "") [st.x, st.y, st.z])) :
            Except PyErr (Option (List String)))
          else pure Option.none) = Except.ok (some xs) := h2
      split at h3
      · have hxs := Option.some.inj (Except.ok.inj h3)
        subst hxs
        simp [htd]
      · exact absurd (Except.ok.inj h3) (by simp)

/-- C6 (witness): the amended statement applied concretely: no
volume-located variable exists in `exDSGhost` so inference returns none; on
`exDSFace` the successful face inference returns a 2-tuple. -/
theorem C6_witness :
    find_coordinates_by_location exDSGhost "volume" 5 = .ok Option.none ∧
    (["lonB", "latB"] : List String).length = if (2 : Int) = 2 then 2 else 3 :=
  ⟨C6_result_shape.1 exDSGhost "volume" 5 (by decide),
   C6_result_shape.2.2 exDSFace "face" 2 ["lonB", "latB"] (by decide)⟩

/-! ### Claim C7 -/

/-- A name containing `lon` case-insensitively. -/
def isLonName (n : String) : Bool := pyContains (pyLower n) "lon"

/-- A name containing `lat` case-insensitively. -/
def isLatName (n : String) : Bool := pyContains (pyLower n) "lat"

/-- The last element of a list, or a default: the value a slot holds after
a sequence of overwrites. -/
def lastOr : List String → Option String → Option String
  | [], d => d
  | a :: l, _ => lastOr l (some a)

theorem fallbackClassify_slots (pcs : List NCVar) : ∀ st : CoordSt,
    (fallbackClassify st pcs).x =
      lastOr ((pcs.map NCVar.name).filter (fun n => isLonName n)) st.x ∧
    (fallbackClassify st pcs).y =
      lastOr ((pcs.map NCVar.name).filter (fun n => !isLonName n && isLatName n)) st.y ∧
    (fallbackClassify st pcs).z =
      lastOr ((pcs.map NCVar.name).filter (fun n => !isLonName n && !isLatName n)) st.z := by
  induction pcs with
  | nil => intro st; exact ⟨rfl, rfl, rfl⟩
  | cons p rest ih =>
    intro st
    have hstep : fallbackClassify st (p :: rest) =
        fallbackClassify (classifyOne st p.name) rest := rfl
    rw [hstep]
    rcases ih (classifyOne st p.name) with ⟨ihx, ihy, ihz⟩
    by_cases hlon : pyContains (pyLower p.name) "lon"
    · refine ⟨?_, ?_, ?_⟩
      · rw [ihx]
        simp [List.filter_cons, isLonName, hlon, classifyOne, lastOr]
      · rw [ihy]
        simp [List.filter_cons, isLonName, isLatName, hlon, classifyOne]
      · rw [ihz]
        simp [List.filter_cons, isLonName, isLatName, hlon, classifyOne]
    · by_cases hlat : pyContains (pyLower p.name) "lat"
      · refine ⟨?_, ?_, ?_⟩
        · rw [ihx]
          simp [List.filter_cons, isLonName, hlon, hlat, classifyOne]
        · rw [ihy]
          simp [List.filter_cons, isLonName, isLatName, hlon, hlat, classifyOne, lastOr]
        · rw [ihz]
          simp [List.filter_cons, isLonName, isLatName, hlon, hlat, classifyOne]
      · refine ⟨?_, ?_, ?_⟩
        · rw [ihx]
          simp [List.filter_cons, isLonName, hlon, hlat, classifyOne]
        · rw [ihy]
          simp [List.filter_cons, isLonName, isLatName, hlon, hlat, classifyOne]
        · rw [ihz]
          simp [List.filter_cons, isLonName, isLatName, hlon, hlat, classifyOne, lastOr]

/-- C7: in the no-`coordinates` fallback, the considered candidates are
exactly the other variables whose dimension set is a non-empty subset of
the location variable's dimensions; each is classified by case-insensitive
substring match on its name — a name containing `lon` fills the x slot, one
containing `lat` (and not `lon`) fills the y slot, any other name fills the
z slot, later candidates overwriting earlier ones — and this classification
is exactly what a `coordinates`-less location variable contributes to the
inference loop. -/
theorem C7_fallback_classification :
    (∀ ds locVar v, v ∈ potentialCoordinates ds locVar ↔
      (v ∈ ds.vars ∧ (∀ d ∈ v.dims, d ∈ locVar.dims) ∧
        v.name ≠ locVar.name ∧ v.dims ≠ [])) ∧
    (∀ st pcs,
      (fallbackClassify st pcs).x =
        lastOr ((pcs.map NCVar.name).filter (fun n => isLonName n)) st.x ∧
      (fallbackClassify st pcs).y =
        lastOr ((pcs.map NCVar.name).filter (fun n => !isLonName n && isLatName n)) st.y ∧
      (fallbackClassify st pcs).z =
        lastOr ((pcs.map NCVar.name).filter (fun n => !isLonName n && !isLatName n)) st.z) ∧
    (∀ ds v rest st, lookupVariable ds v.name = some v →
      getattr v "coordinates" = Option.none →
      fcblLoop ds (v.name :: rest) st =
        fcblLoop ds rest (fallbackClassify st (potentialCoordinates ds v))) := by
  refine ⟨?_, ?_, ?_⟩
  · intro ds locVar v
    unfold potentialCoordinates
    simp [List.mem_filter, List.all_eq_true, and_assoc]
  · intro st pcs
    exact fallbackClassify_slots pcs st
  · intro ds v rest st h1 h2
    simp only [fcblLoop]
    split
    · rename_i heq
      rw [h1] at heq
      simp at heq
    · rename_i lv heq
      rw [h1] at heq
      obtain rfl : v = lv := Option.some.inj heq
      split
      · rfl
      · rename_i a heq2
        rw [h2] at heq2
        simp at heq2

/-- C7 (witness): the loop contribution clause applied to the concrete
face-located variable `A` of `exDSFace`, which has no `coordinates`
attribute. -/
theorem C7_witness :
    fcblLoop exDSFace (exVFaceA.name :: ["B"]) ⟨Option.none, Option.none, Option.none⟩ =
      fcblLoop exDSFace ["B"]
        (fallbackClassify ⟨Option.none, Option.none, Option.none⟩
          (potentialCoordinates exDSFace exVFaceA)) :=
  C7_fallback_classification.2.2 exDSFace exVFaceA ["B"]
    ⟨Option.none, Option.none, Option.none⟩ (by decide) (by decide)

/-! ### Claim C10 -/

/-- C10: the inference loop stops at the first location-tagged variable
that possesses a `coordinates` attribute — location variables after it
cannot affect the result — while a location-tagged variable without one
does not stop the iteration, so slots filled by its fallback classification
can be overwritten by later location-tagged variables (demonstrated
concretely: `A`'s fallback fills x with `lonA`, then `B`'s classification
overwrites it with `lonB`, fills y, and is the point the loop stops at). -/
theorem C10_break_semantics :
    (∀ (ds : NCDataset) (l1 : List String) (vn : String) (l2 l2' : List String)
        (st : CoordSt),
      (∀ n ∈ l1, ∀ w, lookupVariable ds n = some w →
        getattr w "coordinates" = Option.none) →
      (∀ w, lookupVariable ds vn = some w → (getattr w "coordinates").isSome = true) →
      fcblLoop ds (l1 ++ vn :: l2) st = fcblLoop ds (l1 ++ vn :: l2') st) ∧
    (fcblLoop exDSFace ["A"] ⟨Option.none, Option.none, Option.none⟩ =
        .ok ⟨some "lonA", Option.none, Option.none⟩ ∧
      fcblLoop exDSFace ["A", "B"] ⟨Option.none, Option.none, Option.none⟩ =
        .ok ⟨some "lonB", some "latB", Option.none⟩ ∧
      find_coordinates_by_location exDSFace "face" 2 = .ok (some ["lonB", "latB"])) := by
  constructor
  · intro ds l1 vn l2 l2' st h1 h2
    induction l1 generalizing st with
    | nil =>
      simp only [List.nil_append, fcblLoop]
      split
      · rfl
      · rename_i w heq
        split
        · rename_i heq2
          have := h2 w heq
          rw [heq2] at this
          simp at this
        · rfl
    | cons n t ih =>
      simp only [List.cons_append, fcblLoop]
      split
      · rfl
      · rename_i w heq
        split
        · rename_i heq2
          exact ih _ (fun m hm w' hw' => h1 m (List.mem_cons_of_mem _ hm) w' hw')
        · rename_i a heq2
          have := h1 n (List.mem_cons_self _ _) w heq
          rw [this] at heq2
  · exact ⟨by decide, by decide, by decide⟩

/-- C10 (witness): the early-stop clause applied concretely: appending a
further location name after the `coordinates`-bearing `B` does not change
the loop's result. -/
theorem C10_witness :
    fcblLoop exDSFace (["A"] ++ "B" :: []) ⟨Option.none, Option.none, Option.none⟩ =
      fcblLoop exDSFace (["A"] ++ "B" :: ["zzz"]) ⟨Option.none, Option.none, Option.none⟩ :=
  C10_break_semantics.1 exDSFace ["A"] "B" [] ["zzz"] ⟨Option.none, Option.none, Option.none⟩
    (by
      intro n hn w hw
      have hn' : n = "A" := by simpa using hn
      subst hn'
      have hE : lookupVariable exDSFace "A" = some exVFaceA := by decide
      rw [hE] at hw
      obtain rfl : exVFaceA = w := Option.some.inj hw
      decide)
    (by
      intro w hw
      have hE : lookupVariable exDSFace "B" = some
          { name := "B", dims := ["e1"],
            attrs := [("location", AVal.s "face"), ("coordinates", AVal.s "lonB latB")],
            data := [] } := by decide
      rw [hE] at hw
      obtain rfl := Option.some.inj hw
      decide)
